import Mathlib

/-!
# Verification of the Platform_ChemSafety core logic

Shallow embedding, in Lean 4, of the decision logic of the
Platform_ChemSafety repository (a Korean chemical-compliance bookkeeping
tool) together with proofs about it:

* the four batch emission-estimation tiers and the two simplified
  single-substance variants of `IntegratedEmissionCalculator`
  (`chemical_inventory_app.py`);
* the inventory-item construction / registry-merge logic
  `create_inventory_item` and the manual-registration and batch-upload
  inventory updates (`pages/2_📦_인벤토리_관리.py`);
* the KOSHA registry client (`core/kosha_api.py`): `search_by_cas`,
  the field extractors (`get_exposure_limits`, `get_legal_regulations`,
  `get_hazard_classification`, `get_toxicity_info`,
  `get_physical_properties`, `get_ecological_info`) and
  `get_full_msds_data` / `batch_query`;
* the KECO registry client (`core/keco_api.py`): `parse_response`,
  `extract_percent_from_text`, `extract_classifications`,
  `search_chemical_by_cas`;
* the PRTR lookup (`check_prtr_status` fallback stub, `check_prtr`).

Python strings that may be `None` are modelled as `Option String`
(`none` = Python `None`); dictionary entries that may be absent are
modelled as `Option (Option String)` (outer `none` = key absent).
Numeric data is modelled in exact rational arithmetic `ℚ`; where a claim
is specifically about IEEE-754 double precision, a `round64` model of
binary64 round-to-nearest-even (for values in the normal range) is used.
-/

attribute [local semireducible] Rat.mul Rat.add Rat.sub Rat.inv

set_option maxRecDepth 8000

/-! ## Python value helpers -/

/-- A Python string-or-`None` value: `none` models Python `None`. -/
abbrev PyStr : Type := Option String

/-- Python truthiness of a string-or-`None` value: `None` and `""` are falsy. -/
def pyTruthy : PyStr → Bool
  | none => false
  | some s => s ≠ ""

/-- Python `a or b` on string values: `a` if truthy, else `b`. -/
def pyOr (a b : PyStr) : PyStr := if pyTruthy a then a else b

/-- Python `a or d` where `d` is a string literal default. -/
def pyOrS (a : PyStr) (d : String) : PyStr := pyOr a (some d)

/-- Python `dict.get(key, default)` where the entry is modelled as
`Option PyStr` (`none` = key absent, `some v` = key present with value `v`,
which may itself be `None`). -/
def dget (entry : Option PyStr) (default : String) : PyStr :=
  match entry with
  | none => some default
  | some v => v

/-- Python `dict.get(key)` (single-argument form, default `None`). -/
def dget1 (entry : Option PyStr) : PyStr :=
  match entry with
  | none => none
  | some v => v

/-- Python `dict.get(key, d) or d` — the pattern used throughout
`create_inventory_item` to normalise absent/`None`/empty values to `d`. -/
def getOr (entry : Option PyStr) (d : String) : PyStr :=
  pyOr (dget entry d) (some d)

/-- Python string interpolation of a string-or-`None` value, as an
f-string performs it (`str(None) = "None"`). -/
def pyFmt : PyStr → String
  | none => "None"
  | some s => s

/-- Predicate `startsSeq p l`: does `l` start with `p` (character-exact)? -/
def startsSeq : List Char → List Char → Bool
  | [], _ => true
  | _ :: _, [] => false
  | p :: ps, c :: cs => p = c && startsSeq ps cs

/-- Predicate `containsSeq p l`: does `p` occur as a contiguous subsequence of `l`?
(Model of Python's substring test `p in l`.) -/
def containsSeq (pat : List Char) : List Char → Bool
  | [] => startsSeq pat []
  | l@(_ :: t) => startsSeq pat l || containsSeq pat t

/-- Python `pat in s` substring containment on strings. -/
def strContains (s pat : String) : Bool := containsSeq pat.toList s.toList

/-- Python `s[:n]` on strings (first `n` characters). -/
def pyTake (n : ℕ) (s : String) : String := ⟨s.toList.take n⟩

/-- Python `s.strip()`: drop whitespace from both ends. -/
def pyStrip (s : String) : String :=
  ⟨((s.toList.dropWhile Char.isWhitespace).reverse.dropWhile Char.isWhitespace).reverse⟩

/-! ## `IntegratedEmissionCalculator` (chemical_inventory_app.py)

The four batch tiers operate on a list of rows (one structure per
spreadsheet row, with the columns the source reads); numeric cells are
modelled in exact rational arithmetic. -/

/-- One row of the `1_TMS_Data` sheet: status code (`상태코드`), measured
concentration (`측정농도(mg/Sm3)`), flue-gas flow rate
(`배출가스유량(Sm3/hr)`) and measured oxygen concentration
(`실측산소농도(%)`). -/
structure TmsRow where
  statusCode : ℤ
  measuredConc : ℚ
  flowRate : ℚ
  actualO2 : ℚ
deriving DecidableEq

/-- Oxygen-concentration correction of `calculate_tms`:
`측정농도 * (21 - std_o2) / (21 - 실측산소농도)` when the measured oxygen
concentration is below 21 %, the uncorrected concentration otherwise
(and no correction at all when `std_o2` is `None`). -/
def tmsCorrectedConc (stdO2 : Option ℚ) (r : TmsRow) : ℚ :=
  match stdO2 with
  | some s => if r.actualO2 < 21 then r.measuredConc * (21 - s) / (21 - r.actualO2)
              else r.measuredConc
  | none => r.measuredConc

/-- Tier 1, `calculate_tms`: keep rows with status code `0`, apply the
oxygen correction, then sum `보정농도 * 배출가스유량 * 1e-6 * 0.5`. -/
def calculate_tms (rows : List TmsRow) (stdO2 : Option ℚ) : ℚ :=
  if rows = [] then 0
  else
    ((rows.filter (fun r => r.statusCode = 0)).map
      (fun r => tmsCorrectedConc stdO2 r * r.flowRate * (1 / 1000000) * (1 / 2))).sum

/-- Division with an explicit fault value:
`none` models a division-by-zero fault of the source language. -/
def qdiv? (a b : ℚ) : Option ℚ := if b = 0 then none else some (a / b)

/-- Fault-aware variant of the oxygen correction: the division is
performed through `qdiv?`, so a zero divisor would surface as `none`. -/
def tmsCorrectedConc? (stdO2 : Option ℚ) (r : TmsRow) : Option ℚ :=
  match stdO2 with
  | some s => if r.actualO2 < 21 then qdiv? (r.measuredConc * (21 - s)) (21 - r.actualO2)
              else some r.measuredConc
  | none => some r.measuredConc

/-- Fault-propagating row-wise evaluation: the first faulting row aborts
the whole computation (as an uncaught exception would). -/
def rowsEval? (f : TmsRow → Option ℚ) : List TmsRow → Option (List ℚ)
  | [] => some []
  | a :: t =>
    match f a with
    | none => none
    | some b =>
      match rowsEval? f t with
      | none => none
      | some bs => some (b :: bs)

/-- Fault-aware variant of `calculate_tms`: `none` iff some row's
correction divides by zero. -/
def calculate_tms? (rows : List TmsRow) (stdO2 : Option ℚ) : Option ℚ :=
  if rows = [] then some 0
  else
    match rowsEval? (fun r => (tmsCorrectedConc? stdO2 r).map
        (fun c => c * r.flowRate * (1 / 1000000) * (1 / 2)))
        (rows.filter (fun r => r.statusCode = 0)) with
    | none => none
    | some cs => some cs.sum

/-- One row of the `2_Self_Measurement` sheet: average measured
concentration, average flow rate, actual operating hours. -/
structure SelfRow where
  avgConc : ℚ
  avgFlow : ℚ
  operatingHours : ℚ
deriving DecidableEq

/-- Tier 2, `calculate_self_measurement`:
`평균측정농도 * 평균배출유량 * 실제조업시간 * 1e-6`, summed. -/
def calculate_self_measurement (rows : List SelfRow) : ℚ :=
  if rows = [] then 0
  else (rows.map (fun r => r.avgConc * r.avgFlow * r.operatingHours * (1 / 1000000))).sum

/-- One row of the `3_Mass_Balance` sheet: input amount (`투입량(kg)`),
recovered amount (`회수량(kg)`), destroyed amount (`파괴량(kg)`). -/
structure MassRow where
  inputAmount : ℚ
  recoveryAmount : ℚ
  destructionAmount : ℚ
deriving DecidableEq

/-- Tier 3, `calculate_mass_balance`: per row
`투입량 - 회수량 - 파괴량`, floored at 0 (`max(x, 0)` applied row-wise
*before* summation), then summed. -/
def calculate_mass_balance (rows : List MassRow) : ℚ :=
  if rows = [] then 0
  else (rows.map
    (fun r => max (r.inputAmount - r.recoveryAmount - r.destructionAmount) 0)).sum

/-- One row of the `4_Emission_Factor` sheet: activity amount
(`활동량(단위)`), emission factor (`배출계수(kg/단위)`), control-device
efficiency (`방지시설효율(%)`). -/
structure FactorRow where
  activity : ℚ
  factor : ℚ
  efficiency : ℚ
deriving DecidableEq

/-- Tier 4, `calculate_emission_factor`:
`활동량 * 배출계수 * (1 - 방지시설효율/100)`, summed. -/
def calculate_emission_factor (rows : List FactorRow) : ℚ :=
  if rows = [] then 0
  else (rows.map (fun r => r.activity * r.factor * (1 - r.efficiency / 100))).sum

/-- Function `calculate_simple_mass_balance`: scalar mass balance,
`max(input - recovery - destruction, 0)`. -/
def calculate_simple_mass_balance (inputAmount recoveryAmount destructionAmount : ℚ) : ℚ :=
  max (inputAmount - recoveryAmount - destructionAmount) 0

/-- Function `calculate_simple_emission_factor`: scalar emission factor,
`max(activity * factor * (1 - efficiency/100), 0)`. -/
def calculate_simple_emission_factor (activity factor efficiency : ℚ) : ℚ :=
  max (activity * factor * (1 - efficiency / 100)) 0

/-! ## Binary64 (IEEE-754 double) rounding model

The source evaluates the emission formulas on pandas `float64` columns.
`round64` models IEEE-754 binary64 rounding (round to nearest, ties to
even) of a non-zero rational in the normal range: the 53-bit significand
is obtained by scaling into `[2^52, 2^53)` and rounding half-to-even.
The fuel-based `natLog2F`/`natClog2F` are kernel-evaluable binary
logarithms used to locate the exponent. -/

/-- Floor binary logarithm of a natural number, with explicit fuel. -/
def natLog2F : ℕ → ℕ → ℕ
  | 0, _ => 0
  | f + 1, n => if n ≤ 1 then 0 else natLog2F f (n / 2) + 1

/-- Ceiling binary logarithm of a natural number, with explicit fuel. -/
def natClog2F : ℕ → ℕ → ℕ
  | 0, _ => 0
  | f + 1, n => if n ≤ 1 then 0 else natClog2F f ((n + 1) / 2) + 1

/-- Floor binary logarithm of a positive rational whose magnitude lies within the
binary64 normal range (the fuel `1100` dominates the ±1024 exponent
range of binary64, which is the scope of this model). -/
def ratFloorLog2 (q : ℚ) : ℤ :=
  let n := q.num.toNat
  let d := q.den
  if d ≤ n then (natLog2F 1100 (n / d) : ℤ)
  else -(natClog2F 1100 ((d + n - 1) / n) : ℤ)

/-- Round a rational to the nearest integer, ties to even. -/
def roundHalfEven (q : ℚ) : ℤ :=
  let f := ⌊q⌋
  let r := q - (f : ℚ)
  if r < 1 / 2 then f
  else if 1 / 2 < r then f + 1
  else if f % 2 = 0 then f else f + 1

/-- IEEE-754 binary64 rounding (round to nearest, ties to even) of a
rational in the normal range (subnormals and overflow are out of scope:
every value arising in the verified computations is mid-range). -/
def round64 (q : ℚ) : ℚ :=
  if q = 0 then 0
  else
    let a := |q|
    let e : ℤ := ratFloorLog2 a - 52
    let m : ℚ := a / 2 ^ e
    let r : ℚ := (roundHalfEven m : ℚ) * 2 ^ e
    if q < 0 then -r else r

/-- Binary64 evaluation of one emission-factor row, rounding after every
operation exactly as pandas `float64` arithmetic does:
`활동량 * 배출계수 * (1 - 방지시설효율/100)` evaluated as
`fl(fl(activity·factor) · fl(1 - fl(efficiency/100)))`
(the three inputs being binary64 values already). -/
def flEmissionFactorRow (activity factor efficiency : ℚ) : ℚ :=
  round64 (round64 (activity * factor) * round64 (1 - round64 (efficiency / 100)))

/-! ## Inventory item construction (`create_inventory_item`,
pages/2_📦_인벤토리_관리.py lines 82–183)

The two registry payloads and the PRTR status are Python dictionaries;
every key the function reads is modelled as an `Option PyStr` entry
(`none` = key absent, `some v` = key present with value `v`, which may be
Python `None`).  A `none` argument models the Python `None` (or empty,
hence falsy) dictionary. -/

/-- KOSHA payload keys read by `create_inventory_item`. -/
structure KoshaData where
  chemNmKr : Option PyStr
  chemNmEn : Option PyStr
  twa : Option PyStr
  workMeasure : Option PyStr
  specialHealth : Option PyStr
  managedSubstance : Option PyStr
  specialManaged : Option PyStr
  hazmatClass : Option PyStr
  hazmatName : Option PyStr
  hazmatQuantity : Option PyStr
  hazmatGrade : Option PyStr
deriving DecidableEq

/-- KECO regulation payload keys read by `create_inventory_item`
(`success` plus the classification entries; `details` is the nested
detail dictionary in insertion order). -/
structure KecoRegs where
  success : Bool
  existingChem : Option PyStr        -- '기존화학물질'
  toxicSubstance : Option PyStr      -- '유독물질'
  humanHazard : Option PyStr         -- '인체유해성물질'
  accidentSubstance : Option PyStr   -- '사고대비물질'
  restricted : Option PyStr          -- '제한물질'
  prohibited : Option PyStr          -- '금지물질'
  permitted : Option PyStr           -- '허가물질'
  prioritySubstance : Option PyStr   -- '중점관리물질'
  regTargetExisting : Option PyStr   -- '등록대상기존화학물질'
  details : List (String × PyStr)    -- 'details'
deriving DecidableEq

/-- PRTR status keys read by `create_inventory_item`. -/
structure PrtrStatus where
  target : Option PyStr      -- '대상여부'
  group : Option PyStr       -- '그룹'
  threshold : Option PyStr   -- '기준취급량'
deriving DecidableEq

/-- One inventory row (the ledger fields of the `item` dictionary built
by `create_inventory_item`, in source order). -/
structure InventoryItem where
  processName : PyStr        -- '공정명'
  unitWorkplace : PyStr      -- '단위작업장소'
  productName : PyStr        -- '제품명'
  chemicalName : PyStr       -- '화학물질명'
  aliasName : PyStr          -- '관용명/이명'
  casNo : PyStr              -- 'CAS No'
  contentPct : PyStr         -- '함유량(%)'
  carcinogenic : PyStr       -- '발암성'
  mutagenic : PyStr          -- '변이성'
  reproductiveTox : PyStr    -- '생식독성'
  twaLimit : PyStr           -- '노출기준(TWA)'
  workMeasure : PyStr        -- '작업환경측정'
  specialHealth : PyStr      -- '특수건강진단'
  managedSubstance : PyStr   -- '관리대상유해물질'
  specialManaged : PyStr     -- '특별관리물질'
  hazmatClass : PyStr        -- '위험물류별'
  hazmatQuantity : PyStr     -- '지정수량'
  hazmatGrade : PyStr        -- '위험등급'
  existingFlag : PyStr       -- '기존'
  acuteChronicEco : PyStr    -- '급성·만성·생태'
  accidentPrep : PyStr       -- '사고대비'
  restrictFlag : PyStr       -- '제한/금지/허가'
  priorityFlag : PyStr       -- '중점'
  residualFlag : PyStr       -- '잔류'
  contentRegInfo : PyStr     -- '함량 및 규제정보'
  regTargetExisting : PyStr  -- '등록대상기존화학물질'
  existingStatus : PyStr     -- '기존물질여부'
  prtrGroup : PyStr          -- 'PRTR그룹'
  prtrThreshold : PyStr      -- 'PRTR기준량'
deriving DecidableEq

/-- The initial `item = { ... }` dictionary of `create_inventory_item`:
the seven user-context fields default through `x or ''`, every
compliance field starts at its documented `'-'`/`'X'` sentinel. -/
def initInventoryItem (processName unitWorkplace productName chemName aliasNm casNo content : PyStr) :
    InventoryItem where
  processName := pyOrS processName ""
  unitWorkplace := pyOrS unitWorkplace ""
  productName := pyOrS productName ""
  chemicalName := pyOrS chemName ""
  aliasName := pyOrS aliasNm ""
  casNo := pyOrS casNo ""
  contentPct := pyOrS content ""
  carcinogenic := some "-"
  mutagenic := some "-"
  reproductiveTox := some "-"
  twaLimit := some "-"
  workMeasure := some "X"
  specialHealth := some "X"
  managedSubstance := some "X"
  specialManaged := some "X"
  hazmatClass := some "-"
  hazmatQuantity := some "-"
  hazmatGrade := some "-"
  existingFlag := some "-"
  acuteChronicEco := some "X"
  accidentPrep := some "X"
  restrictFlag := some "-"
  priorityFlag := some "-"
  residualFlag := some "-"
  contentRegInfo := some "-"
  regTargetExisting := some "-"
  existingStatus := some "-"
  prtrGroup := some "-"
  prtrThreshold := some "-"

/-- The `if kosha_data:` block of `create_inventory_item` (applied only
when the KOSHA payload is truthy).  Each assignment is the source's
`kosha_data.get(key, default) or default` pattern; the chemical name is
filled from `chemNmKr or chemNmEn` only when the caller supplied no
name. -/
def koshaApply (chemName : PyStr) (k : KoshaData) (x : InventoryItem) : InventoryItem :=
  let hazmatClassV := getOr k.hazmatClass "-"
  let hazmatNameV := getOr k.hazmatName "-"
  { x with
    chemicalName :=
      if pyTruthy chemName then x.chemicalName
      else pyOr (dget k.chemNmKr "") (dget k.chemNmEn "")
    twaLimit := getOr k.twa "-"
    workMeasure := getOr k.workMeasure "X"
    specialHealth := getOr k.specialHealth "X"
    managedSubstance := getOr k.managedSubstance "X"
    specialManaged := getOr k.specialManaged "X"
    hazmatClass :=
      if hazmatClassV ≠ some "-" ∧ hazmatNameV ≠ some "-" then
        some (pyFmt hazmatClassV ++ " " ++ pyFmt hazmatNameV)
      else if hazmatClassV ≠ some "-" then hazmatClassV
      else x.hazmatClass
    hazmatQuantity := getOr k.hazmatQuantity "-"
    hazmatGrade := getOr k.hazmatGrade "-" }

/-- The `if keco_data and keco_data.get('success'):` block of
`create_inventory_item`: each classification value is fetched with
default `'-'` and written only when truthy and distinct from `'-'`
(so an explicit KECO value only ever replaces the field's sentinel). -/
def kecoApply (d : KecoRegs) (x : InventoryItem) : InventoryItem :=
  let existing := dget d.existingChem "-"
  let toxic := dget d.toxicSubstance "-"
  let humanHazard := dget d.humanHazard "-"
  let accident := dget d.accidentSubstance "-"
  let restricted := dget d.restricted "-"
  let prohibited := dget d.prohibited "-"
  let permitted := dget d.permitted "-"
  let priority := dget d.prioritySubstance "-"
  let regExisting := dget d.regTargetExisting "-"
  let regList :=
    (if pyTruthy restricted ∧ restricted ≠ some "-" then ["제한(" ++ pyFmt restricted ++ ")"] else [])
    ++ (if pyTruthy prohibited ∧ prohibited ≠ some "-" then ["금지(" ++ pyFmt prohibited ++ ")"] else [])
    ++ (if pyTruthy permitted ∧ permitted ≠ some "-" then ["허가(" ++ pyFmt permitted ++ ")"] else [])
  let infoList := (d.details.filter (fun kv => strContains kv.1 "함량")).map
    (fun kv => kv.1 ++ ": " ++ pyFmt kv.2)
  { x with
    existingFlag :=
      if pyTruthy existing ∧ existing ≠ some "-" then some "O" else x.existingFlag
    existingStatus :=
      if pyTruthy existing ∧ existing ≠ some "-" then existing else x.existingStatus
    acuteChronicEco :=
      if pyTruthy toxic ∧ toxic ≠ some "-" then toxic
      else if pyTruthy humanHazard ∧ humanHazard ≠ some "-" then humanHazard
      else x.acuteChronicEco
    accidentPrep :=
      if pyTruthy accident ∧ accident ≠ some "-" then accident else x.accidentPrep
    restrictFlag :=
      if regList ≠ [] then some (String.intercalate ", " regList) else x.restrictFlag
    priorityFlag :=
      if pyTruthy priority ∧ priority ≠ some "-" then priority else x.priorityFlag
    regTargetExisting :=
      if pyTruthy regExisting ∧ regExisting ≠ some "-" then regExisting else x.regTargetExisting
    contentRegInfo :=
      if d.details ≠ [] ∧ infoList ≠ [] then
        some (String.intercalate "; " (infoList.take 2))
      else x.contentRegInfo }

/-- The `if prtr_status and prtr_status.get('대상여부') == 'O':` block of
`create_inventory_item`: the two PRTR fields are taken verbatim via
`prtr_status.get(key, '-')`. -/
def prtrApply (p : PrtrStatus) (x : InventoryItem) : InventoryItem :=
  { x with
    prtrGroup := if dget1 p.target = some "O" then dget p.group "-" else x.prtrGroup
    prtrThreshold := if dget1 p.target = some "O" then dget p.threshold "-" else x.prtrThreshold }

/-- Function `create_inventory_item(process_name, unit_workplace, product_name,
chem_name, alias, cas_no, content, kosha_data, keco_data, prtr_status)`:
initial defaults, then the KOSHA block, then the KECO block (guarded by
its `success` flag), then the PRTR block. -/
def create_inventory_item
    (processName unitWorkplace productName chemName aliasNm casNo content : PyStr)
    (koshaData : Option KoshaData) (kecoData : Option KecoRegs)
    (prtrStatus : Option PrtrStatus) : InventoryItem :=
  let x0 := initInventoryItem processName unitWorkplace productName chemName aliasNm casNo content
  let x1 := match koshaData with
    | none => x0
    | some k => koshaApply chemName k x0
  let x2 := match kecoData with
    | none => x1
    | some d => if d.success then kecoApply d x1 else x1
  match prtrStatus with
  | none => x2
  | some p => prtrApply p x2

/-- The (fixed) set of ledger fields of an inventory item. -/
inductive ItemField
  | processName | unitWorkplace | productName | chemicalName | aliasName | casNo | contentPct
  | carcinogenic | mutagenic | reproductiveTox | twaLimit
  | workMeasure | specialHealth | managedSubstance | specialManaged
  | hazmatClass | hazmatQuantity | hazmatGrade
  | existingFlag | acuteChronicEco | accidentPrep | restrictFlag
  | priorityFlag | residualFlag | contentRegInfo | regTargetExisting | existingStatus
  | prtrGroup | prtrThreshold
deriving DecidableEq, Fintype

/-- Project the value of a ledger field out of an inventory item. -/
def InventoryItem.get (x : InventoryItem) : ItemField → PyStr
  | .processName => x.processName
  | .unitWorkplace => x.unitWorkplace
  | .productName => x.productName
  | .chemicalName => x.chemicalName
  | .aliasName => x.aliasName
  | .casNo => x.casNo
  | .contentPct => x.contentPct
  | .carcinogenic => x.carcinogenic
  | .mutagenic => x.mutagenic
  | .reproductiveTox => x.reproductiveTox
  | .twaLimit => x.twaLimit
  | .workMeasure => x.workMeasure
  | .specialHealth => x.specialHealth
  | .managedSubstance => x.managedSubstance
  | .specialManaged => x.specialManaged
  | .hazmatClass => x.hazmatClass
  | .hazmatQuantity => x.hazmatQuantity
  | .hazmatGrade => x.hazmatGrade
  | .existingFlag => x.existingFlag
  | .acuteChronicEco => x.acuteChronicEco
  | .accidentPrep => x.accidentPrep
  | .restrictFlag => x.restrictFlag
  | .priorityFlag => x.priorityFlag
  | .residualFlag => x.residualFlag
  | .contentRegInfo => x.contentRegInfo
  | .regTargetExisting => x.regTargetExisting
  | .existingStatus => x.existingStatus
  | .prtrGroup => x.prtrGroup
  | .prtrThreshold => x.prtrThreshold

/-! ## Inventory registration (pages/2_📦_인벤토리_관리.py)

The session inventory is the list `st.session_state.inventory`; only the
inventory mutations are modelled (progress bars, counters and message
rendering are display-only). -/

/-- Result of one manual registration attempt: the updated inventory and
whether the "이미 등록된 CAS 번호입니다." duplicate warning fired. -/
structure RegisterOutcome where
  inventory : List InventoryItem
  duplicateWarning : Bool
deriving DecidableEq

/-- Tab-2 individual registration (lines 564–608): guarded on a
non-empty CAS string and a successful KOSHA or KECO lookup, the item is
built by `create_inventory_item` and appended only if
`cas.strip() not in [i['CAS No'] for i in st.session_state.inventory]`;
otherwise the inventory is unchanged and the duplicate warning is shown. -/
def manualRegister (inv : List InventoryItem)
    (processName unitWorkplace productName aliasNm : PyStr) (cas : String) (content : PyStr)
    (koshaData : Option KoshaData) (kecoData : Option KecoRegs)
    (prtrStatus : Option PrtrStatus) : RegisterOutcome :=
  if cas = "" then ⟨inv, false⟩
  else
    let querySuccess := koshaData.isSome || (match kecoData with
      | some d => d.success
      | none => false)
    if querySuccess then
      let chemName : PyStr :=
        match koshaData with
        | some k => pyOr (dget k.chemNmKr "") (dget k.chemNmEn "")
        | none => some ""   -- the KECO regs dictionary has no 'chemNmKr' key, so `.get` yields ''
      let item := create_inventory_item processName unitWorkplace productName chemName aliasNm
        (some cas) content koshaData kecoData prtrStatus
      if (inv.map (fun i => i.casNo)).contains (some (pyStrip cas)) then ⟨inv, true⟩
      else ⟨inv ++ [item], false⟩
    else ⟨inv, false⟩

/-- Normalisation of a raw CAS cell in the batch loop (line 461):
`str(cas_val).strip()` unless the value is `None` or its stripped string
is one of `''`, `'None'`, `'nan'`, in which case the row has no CAS. -/
def cleanCas : PyStr → String
  | none => ""
  | some s => if pyStrip s = "" ∨ pyStrip s = "None" ∨ pyStrip s = "nan" then "" else pyStrip s

/-- Helper `get_val` of the batch loop (lines 469–479): a missing/`None`/`nan`
cell becomes `''`, anything else its stripped string. -/
def cleanVal : PyStr → String
  | none => ""
  | some s => if pyStrip s = "" ∨ pyStrip s = "None" ∨ pyStrip s = "nan" then "" else pyStrip s

/-- One row of a batch upload: the raw spreadsheet cells for the mapped
columns together with the per-row registry lookup results. -/
structure BatchRow where
  casVal : PyStr
  chemNameVal : PyStr
  processVal : PyStr
  unitVal : PyStr
  productVal : PyStr
  contentVal : PyStr
  koshaData : Option KoshaData
  kecoData : Option KecoRegs
  prtrStatus : Option PrtrStatus
deriving DecidableEq

/-- One iteration of the tab-1 batch upload loop (lines 457–507): a row
without a usable CAS number is skipped; otherwise the created item is
appended unconditionally — the loop performs no duplicate check. -/
def batchUploadStep (inv : List InventoryItem) (row : BatchRow) : List InventoryItem :=
  let cas := cleanCas row.casVal
  if cas = "" then inv
  else inv ++ [create_inventory_item (some (cleanVal row.processVal)) (some (cleanVal row.unitVal))
    (some (cleanVal row.productVal)) (some (cleanVal row.chemNameVal)) (some "") (some cas)
    (some (cleanVal row.contentVal)) row.koshaData row.kecoData row.prtrStatus]

/-- The tab-1 batch upload loop over a batch of rows. -/
def batchUpload (inv : List InventoryItem) (rows : List BatchRow) : List InventoryItem :=
  rows.foldl batchUploadStep inv

/-- Number of inventory rows carrying the CAS number `c`. -/
def casCount (inv : List InventoryItem) (c : String) : ℕ :=
  (inv.map (fun i => i.casNo)).count (some c)

/-! ## Regular-expression models

The extractors use four fixed `re.search` patterns; each is modelled by
an explicit leftmost-scan matcher with the backtracking behaviour of the
pattern spelled out.  `re.IGNORECASE` literals compare case-folded. -/

/-- Case-insensitive character equality (`re.IGNORECASE`). -/
def ciEq (a b : Char) : Bool := a.toLower = b.toLower

/-- Drop the literal `p` from the front of `l`, case-insensitively;
`none` when `l` does not start with `p`. -/
def ciDropLit : List Char → List Char → Option (List Char)
  | [], l => some l
  | _ :: _, [] => none
  | p :: ps, c :: cs => if ciEq p c then ciDropLit ps cs else none

/-- Drop the literal `p` from the front of `l` (exact characters). -/
def dropLit : List Char → List Char → Option (List Char)
  | [], l => some l
  | _ :: _, [] => none
  | p :: ps, c :: cs => if p = c then dropLit ps cs else none

/-- The character class `[:\s]` (colon or whitespace). -/
def isColonWs (c : Char) : Bool := c = ':' || c.isWhitespace

/-- The complement of the capture class `[^,;\n]`. -/
def isStopChar (c : Char) : Bool := c = ',' || c = ';' || c = '\n'

/-- Backtracking step of `[:\s]*([^,;\n]+)`: starting from the greedy
length `k` of the `[:\s]*` run, find the largest `k' ≤ k` after which a
non-empty capture of non-`,;\n` characters can start, and return that
capture. -/
def findCaptureFrom (rest : List Char) : ℕ → Option String
  | 0 =>
    match rest with
    | [] => none
    | c :: _ =>
      if isStopChar c then none
      else some ⟨rest.takeWhile (fun d => !isStopChar d)⟩
  | k + 1 =>
    match rest.drop (k + 1) with
    | [] => findCaptureFrom rest k
    | c :: _ =>
      if isStopChar c then findCaptureFrom rest k
      else some ⟨(rest.drop (k + 1)).takeWhile (fun d => !isStopChar d)⟩

/-- Attempt `KEY[:\s]*([^,;\n]+)` (with `re.IGNORECASE`) at the current
position; returns group 1. -/
def matchKeyValAt (key : List Char) (l : List Char) : Option String :=
  match ciDropLit key l with
  | none => none
  | some rest => findCaptureFrom rest (rest.takeWhile isColonWs).length

/-- Leftmost scan of `matchKeyValAt` over the tail positions of `l`. -/
def searchKeyValAux (key : List Char) : List Char → Option String
  | [] => matchKeyValAt key []
  | l@(_ :: t) =>
    match matchKeyValAt key l with
    | some g => some g
    | none => searchKeyValAux key t

/-- Model of `re.search(KEY + r'[:\s]*([^,;\n]+)', s, re.IGNORECASE)`, returning
group 1 of the leftmost match.  Instantiated with `TWA`, `STEL` and
`ceiling` (the source's `[Cc]eiling` under `re.IGNORECASE` is the
case-insensitive literal). -/
def searchKeyVal (key s : String) : Option String := searchKeyValAux key.toList s.toList

/-- Pattern `\d+(?:\.\d+)?`: the greedy digit run with optional fractional part;
returns the matched characters and the remaining suffix (no backtracking
case is reachable: shorter digit runs leave a digit where the follow-up
patterns of this file expect `.`/whitespace/`%`/a unit literal). -/
def matchNumber (l : List Char) : Option (List Char × List Char) :=
  let ds := l.takeWhile Char.isDigit
  if ds = [] then none
  else
    let rest1 := l.drop ds.length
    match rest1 with
    | '.' :: r2 =>
      let fs := r2.takeWhile Char.isDigit
      if fs = [] then some (ds, rest1)
      else some (ds ++ '.' :: fs, r2.drop fs.length)
    | _ => some (ds, rest1)

/-- The unit alternation `(?:ppm|mg/m3|mg/㎥)` under `re.IGNORECASE`,
tried left to right. -/
def ppmUnitLit (l : List Char) : Option (List Char) :=
  match ciDropLit "ppm".toList l with
  | some r => some r
  | none =>
    match ciDropLit "mg/m3".toList l with
    | some r => some r
    | none => ciDropLit "mg/㎥".toList l

/-- After the number: `\s*` (greedy; the unit literals never start with
whitespace, so only the maximal run can succeed) then the unit. -/
def ppmTail (l : List Char) : Option (List Char) :=
  ppmUnitLit (l.drop (l.takeWhile Char.isWhitespace).length)

/-- Attempt `(\d+(?:\.\d+)?\s*(?:ppm|mg/m3|mg/㎥))` at the current
position; returns group 1 (the whole match). -/
def matchPpmAt (l : List Char) : Option String :=
  match matchNumber l with
  | none => none
  | some (_, rest1) =>
    match ppmTail rest1 with
    | some rest => some ⟨l.take (l.length - rest.length)⟩
    | none => none

/-- Leftmost scan of `matchPpmAt`. -/
def searchPpmAux : List Char → Option String
  | [] => none
  | l@(_ :: t) =>
    match matchPpmAt l with
    | some g => some g
    | none => searchPpmAux t

/-- Model of `re.search(r'(\d+(?:\.\d+)?\s*(?:ppm|mg/m3|mg/㎥))', s, re.IGNORECASE)`. -/
def searchPpm (s : String) : Option String := searchPpmAux s.toList

/-- The qualifier alternation `(이상|이하|초과|미만)`, tried left to right. -/
def percentQualifier (l : List Char) : Option String :=
  match dropLit "이상".toList l with
  | some _ => some "이상"
  | none =>
    match dropLit "이하".toList l with
    | some _ => some "이하"
    | none =>
      match dropLit "초과".toList l with
      | some _ => some "초과"
      | none =>
        match dropLit "미만".toList l with
        | some _ => some "미만"
        | none => none

/-- Attempt `(\d+(?:\.\d+)?)\s*%\s*(이상|이하|초과|미만)` at the current
position; returns groups 1 and 2. -/
def matchPercent1At (l : List Char) : Option (String × String) :=
  match matchNumber l with
  | none => none
  | some (num, r1) =>
    match r1.drop (r1.takeWhile Char.isWhitespace).length with
    | '%' :: r3 =>
      match percentQualifier (r3.drop (r3.takeWhile Char.isWhitespace).length) with
      | some q => some (⟨num⟩, q)
      | none => none
    | _ => none

/-- Attempt `(\d+(?:\.\d+)?)\s*%` at the current position; returns
group 1. -/
def matchPercent2At (l : List Char) : Option String :=
  match matchNumber l with
  | none => none
  | some (num, r1) =>
    match r1.drop (r1.takeWhile Char.isWhitespace).length with
    | '%' :: _ => some ⟨num⟩
    | _ => none

/-- Leftmost scan of `matchPercent1At`. -/
def searchPercent1Aux : List Char → Option (String × String)
  | [] => none
  | l@(_ :: t) =>
    match matchPercent1At l with
    | some g => some g
    | none => searchPercent1Aux t

/-- Leftmost scan of `matchPercent2At`. -/
def searchPercent2Aux : List Char → Option String
  | [] => none
  | l@(_ :: t) =>
    match matchPercent2At l with
    | some g => some g
    | none => searchPercent2Aux t

/-- Model of `re.search(r'(\d+(?:\.\d+)?)\s*%\s*(이상|이하|초과|미만)', s)`. -/
def searchPercent1 (s : String) : Option (String × String) := searchPercent1Aux s.toList

/-- Model of `re.search(r'(\d+(?:\.\d+)?)\s*%', s)`. -/
def searchPercent2 (s : String) : Option String := searchPercent2Aux s.toList

/-! ## KOSHA registry client (core/kosha_api.py)

Each API call is modelled by its observable outcome: a raised network
error (`requests.get` / `raise_for_status`), a malformed body
(`ET.fromstring` raised), or a parsed list of `item` elements.  Each
`item` carries the two `findtext` fields the extractors read
(`findtext` returns `None` for a missing element, modelled as `none`). -/

/-- One `item` element of a chemdetail response. -/
structure MsdsItem where
  msdsItemNameKor : Option String
  itemDetail : Option String
deriving DecidableEq

/-- Outcome of one chemdetail HTTP call. -/
inductive DetailResp
  | netError (msg : String)
  | badXml (msg : String)
  | ok (items : List MsdsItem)
deriving DecidableEq

/-- Result dictionary of `get_exposure_limits`. -/
structure ExposureLimits where
  TWA : String
  STEL : String
  ceiling : String
  raw_data : List (String × String)
deriving DecidableEq

/-- The label filter of `get_exposure_limits`:
`'국내' in name_kor or '노출기준' in name_kor or '고용노동부' in name_kor`. -/
def exposureLabelHit (nameKor : String) : Bool :=
  strContains nameKor "국내" || strContains nameKor "노출기준" || strContains nameKor "고용노동부"

/-- One iteration of the `for item in root.findall('.//item')` loop of
`get_exposure_limits` (lines 95–120): collect `raw_data`, skip no-data
entries, and on a label hit assign `TWA`/`STEL`/`ceiling` from the regex
captures — each assignment overwrites whatever an earlier item put
there — with the bare ppm/mg-m³ fallback only while `TWA` is still
`'-'`. -/
def exposureStep (acc : ExposureLimits) (it : MsdsItem) : ExposureLimits :=
  let nameKor := it.msdsItemNameKor.getD ""
  let detail := it.itemDetail.getD ""
  let rawData := if detail ≠ "" ∧ detail ≠ "자료없음" ∧ detail ≠ "해당없음" then
      acc.raw_data ++ [(nameKor, detail)]
    else acc.raw_data
  if detail = "" ∨ detail = "자료없음" ∨ detail = "해당없음" then
    { acc with raw_data := rawData }
  else if exposureLabelHit nameKor then
    let twa1 := match searchKeyVal "TWA" detail with
      | some g => pyTake 50 (pyStrip g)
      | none => acc.TWA
    let stel1 := match searchKeyVal "STEL" detail with
      | some g => pyTake 50 (pyStrip g)
      | none => acc.STEL
    let ceiling1 := match searchKeyVal "ceiling" detail with
      | some g => pyTake 50 (pyStrip g)
      | none => acc.ceiling
    let twa2 := if twa1 = "-" then
        match searchPpm detail with
        | some g => g
        | none => twa1
      else twa1
    ⟨twa2, stel1, ceiling1, rawData⟩
  else { acc with raw_data := rawData }

/-- Function `get_exposure_limits` (lines 85–124): defaults
`{'TWA': '-', 'STEL': '-', 'ceiling': '-', 'raw_data': []}`, the item
loop on a parsed response, and the caught-exception path returning the
defaults untouched. -/
def get_exposure_limits (resp : DetailResp) : ExposureLimits :=
  match resp with
  | .netError _ => ⟨"-", "-", "-", []⟩
  | .badXml _ => ⟨"-", "-", "-", []⟩
  | .ok items => items.foldl exposureStep ⟨"-", "-", "-", []⟩

/-- Result dictionary of `get_legal_regulations` (core version). -/
structure LegalRegulations where
  workMeasure : String        -- '작업환경측정'
  specialHealth : String      -- '특수건강진단'
  managedSubstance : String   -- '관리대상유해물질'
  specialManaged : String     -- '특별관리물질'
  permissibleStd : String     -- '허용기준대상'
  psmTarget : String          -- 'PSM대상'
  toxicSubstance : String     -- '유독물질'
  permitted : String          -- '허가물질'
  restricted : String         -- '제한물질'
  prohibited : String         -- '금지물질'
  accidentSubstance : String  -- '사고대비물질'
  hazardousMaterial : String  -- '위험물'
  designatedWaste : String    -- '지정폐기물'
  raw_data : List (String × String)
deriving DecidableEq

/-- Defaults of `get_legal_regulations`. -/
def legalDefaults : LegalRegulations :=
  ⟨"X", "X", "X", "X", "X", "X", "-", "-", "-", "-", "-", "-", "-", []⟩

/-- One iteration of the item loop of `get_legal_regulations`
(lines 146–192). -/
def legalStep (acc : LegalRegulations) (it : MsdsItem) : LegalRegulations :=
  let nameKor := it.msdsItemNameKor.getD ""
  let detail := it.itemDetail.getD ""
  let acc := if detail ≠ "" ∧ detail ≠ "해당없음" ∧ detail ≠ "자료없음" ∧ detail ≠ "-" then
      { acc with raw_data := acc.raw_data ++ [(nameKor, detail)] }
    else acc
  if detail = "" ∨ detail = "해당없음" ∨ detail = "자료없음" ∨ detail = "-" then acc
  else
    let acc := if strContains nameKor "산업안전보건법" || strContains nameKor "산안법" then
        let acc := if strContains detail "작업환경측정" then { acc with workMeasure := "O" } else acc
        let acc := if strContains detail "특수건강진단" then { acc with specialHealth := "O" } else acc
        let acc := if strContains detail "관리대상" then { acc with managedSubstance := "O" } else acc
        let acc := if strContains detail "특별관리" then { acc with specialManaged := "O" } else acc
        let acc := if strContains detail "허용기준" then { acc with permissibleStd := "O" } else acc
        if strContains detail "PSM" || strContains detail "공정안전" then { acc with psmTarget := "O" } else acc
      else acc
    let acc := if strContains nameKor "화관법" || strContains nameKor "유해화학물질" then
        let acc := if strContains detail "유독" then { acc with toxicSubstance := pyTake 50 detail } else acc
        let acc := if strContains detail "허가" then { acc with permitted := pyTake 50 detail } else acc
        let acc := if strContains detail "제한" then { acc with restricted := pyTake 50 detail } else acc
        let acc := if strContains detail "금지" then { acc with prohibited := pyTake 50 detail } else acc
        if strContains detail "사고대비" then { acc with accidentSubstance := pyTake 50 detail } else acc
      else acc
    let acc := if strContains nameKor "위험물" then
        if detail ≠ "해당없음" ∧ detail ≠ "자료없음" then { acc with hazardousMaterial := pyTake 50 detail } else acc
      else acc
    if strContains nameKor "폐기물" then
      if detail ≠ "해당없음" ∧ detail ≠ "자료없음" then { acc with designatedWaste := pyTake 50 detail } else acc
    else acc

/-- Function `get_legal_regulations` (lines 127–197). -/
def get_legal_regulations (resp : DetailResp) : LegalRegulations :=
  match resp with
  | .netError _ => legalDefaults
  | .badXml _ => legalDefaults
  | .ok items => items.foldl legalStep legalDefaults

/-- Result dictionary of `get_hazard_classification` (core version,
section 2 of the MSDS). -/
structure HazardClassification where
  ghsClassification : List String
  signalWord : String
  hazardStatements : List String
  precautionaryStatements : List String
  pictograms : List String
  raw_data : List (String × String)
deriving DecidableEq

/-- One iteration of the item loop of `get_hazard_classification`
(lines 218–234; this loop has no skip/`continue` clause). -/
def hazardStep (acc : HazardClassification) (it : MsdsItem) : HazardClassification :=
  let nameKor := it.msdsItemNameKor.getD ""
  let detail := it.itemDetail.getD ""
  let acc := if detail ≠ "" ∧ detail ≠ "자료없음" ∧ detail ≠ "해당없음" ∧ detail ≠ "-" then
      { acc with raw_data := acc.raw_data ++ [(nameKor, detail)] }
    else acc
  if strContains nameKor "유해·위험성 분류" || strContains nameKor "유해위험성 분류" then
    { acc with ghsClassification := acc.ghsClassification ++ [detail] }
  else if strContains nameKor "신호어" then
    { acc with signalWord := detail }
  else if strContains nameKor "유해·위험 문구" || strContains nameKor "H문구" then
    { acc with hazardStatements := acc.hazardStatements ++ [detail] }
  else if strContains nameKor "예방조치문구" || strContains nameKor "P문구" then
    { acc with precautionaryStatements := acc.precautionaryStatements ++ [detail] }
  else if strContains nameKor "그림문자" then
    { acc with pictograms := acc.pictograms ++ [detail] }
  else acc

/-- Function `get_hazard_classification` (lines 200–239). -/
def get_hazard_classification (resp : DetailResp) : HazardClassification :=
  match resp with
  | .netError _ => ⟨[], "-", [], [], [], []⟩
  | .badXml _ => ⟨[], "-", [], [], [], []⟩
  | .ok items => items.foldl hazardStep ⟨[], "-", [], [], [], []⟩

/-- Result dictionary of `get_toxicity_info` (section 11). -/
structure ToxicityInfo where
  acuteOral : String          -- '급성경구독성'
  acuteDermal : String        -- '급성경피독성'
  acuteInhalation : String    -- '급성흡입독성'
  skinCorrosion : String      -- '피부부식성'
  eyeDamage : String          -- '심한눈손상성'
  skinSensitisation : String  -- '피부과민성'
  respSensitisation : String  -- '호흡기과민성'
  germCellMutagen : String    -- '생식세포변이원성'
  carcinogenicity : String    -- '발암성'
  reproductiveTox : String    -- '생식독성'
  stotSingle : String         -- '특정표적장기독성_1회'
  stotRepeated : String       -- '특정표적장기독성_반복'
  aspirationHazard : String   -- '흡인유해성'
  iarc : String               -- 'IARC'
  acgih : String              -- 'ACGIH'
  ntp : String                -- 'NTP'
  raw_data : List (String × String)
deriving DecidableEq

/-- Defaults of `get_toxicity_info`. -/
def toxicityDefaults : ToxicityInfo :=
  ⟨"-", "-", "-", "-", "-", "-", "-", "-", "-", "-", "-", "-", "-", "-", "-", "-", []⟩

/-- One iteration of the item loop of `get_toxicity_info`
(lines 262–305): an if/elif chain, so only the first matching branch of
each item fires. -/
def toxicityStep (acc : ToxicityInfo) (it : MsdsItem) : ToxicityInfo :=
  let nameKor := it.msdsItemNameKor.getD ""
  let detail := it.itemDetail.getD ""
  let acc := if detail ≠ "" ∧ detail ≠ "자료없음" ∧ detail ≠ "해당없음" ∧ detail ≠ "-" then
      { acc with raw_data := acc.raw_data ++ [(nameKor, detail)] }
    else acc
  if detail = "" ∨ detail = "자료없음" then acc
  else
    let nameLower := nameKor.toLower
    if strContains nameKor "급성 경구" || strContains nameKor "경구독성" then
      { acc with acuteOral := pyTake 100 detail }
    else if strContains nameKor "급성 경피" || strContains nameKor "경피독성" then
      { acc with acuteDermal := pyTake 100 detail }
    else if strContains nameKor "급성 흡입" || strContains nameKor "흡입독성" then
      { acc with acuteInhalation := pyTake 100 detail }
    else if strContains nameKor "피부 부식" then
      { acc with skinCorrosion := pyTake 100 detail }
    else if strContains nameKor "눈 손상" || strContains nameKor "눈손상" then
      { acc with eyeDamage := pyTake 100 detail }
    else if strContains nameKor "피부 과민" then
      { acc with skinSensitisation := pyTake 100 detail }
    else if strContains nameKor "호흡기 과민" then
      { acc with respSensitisation := pyTake 100 detail }
    else if strContains nameKor "생식세포 변이" || strContains nameKor "변이원성" then
      { acc with germCellMutagen := pyTake 100 detail }
    else if strContains nameKor "발암성" then
      { acc with carcinogenicity := pyTake 100 detail }
    else if strContains nameKor "생식독성" then
      { acc with reproductiveTox := pyTake 100 detail }
    else if strContains nameKor "특정표적" ∧ strContains nameKor "1회" then
      { acc with stotSingle := pyTake 100 detail }
    else if strContains nameKor "특정표적" ∧ strContains nameKor "반복" then
      { acc with stotRepeated := pyTake 100 detail }
    else if strContains nameKor "흡인 유해" then
      { acc with aspirationHazard := pyTake 100 detail }
    else if strContains nameLower "iarc" then
      { acc with iarc := pyTake 30 detail }
    else if strContains nameLower "acgih" then
      { acc with acgih := pyTake 30 detail }
    else if strContains nameLower "ntp" then
      { acc with ntp := pyTake 30 detail }
    else acc

/-- Function `get_toxicity_info` (lines 242–310). -/
def get_toxicity_info (resp : DetailResp) : ToxicityInfo :=
  match resp with
  | .netError _ => toxicityDefaults
  | .badXml _ => toxicityDefaults
  | .ok items => items.foldl toxicityStep toxicityDefaults

/-- Result dictionary of `get_physical_properties` (section 9). -/
structure PhysicalProperties where
  appearance : String        -- '외관'
  odor : String              -- '냄새'
  pH : String                -- 'pH'
  meltingPoint : String      -- '녹는점'
  boilingPoint : String      -- '끓는점'
  flashPoint : String        -- '인화점'
  evaporationRate : String   -- '증발속도'
  flammability : String      -- '인화성'
  explosiveLimits : String   -- '폭발한계'
  vaporPressure : String     -- '증기압'
  vaporDensity : String      -- '증기밀도'
  specificGravity : String   -- '비중'
  solubility : String        -- '용해도'
  octanolWater : String      -- '옥탄올물분배계수'
  autoignition : String      -- '자연발화점'
  decompositionTemp : String -- '분해온도'
  viscosity : String         -- '점도'
  molecularWeight : String   -- '분자량'
  raw_data : List (String × String)
deriving DecidableEq

/-- Defaults of `get_physical_properties`. -/
def physicalDefaults : PhysicalProperties :=
  ⟨"-", "-", "-", "-", "-", "-", "-", "-", "-", "-", "-", "-", "-", "-", "-", "-", "-", "-", []⟩

/-- One iteration of the item loop of `get_physical_properties`
(lines 333–378): an if/elif chain keyed on the item label. -/
def physicalStep (acc : PhysicalProperties) (it : MsdsItem) : PhysicalProperties :=
  let nameKor := it.msdsItemNameKor.getD ""
  let detail := it.itemDetail.getD ""
  let acc := if detail ≠ "" ∧ detail ≠ "자료없음" ∧ detail ≠ "해당없음" ∧ detail ≠ "-" then
      { acc with raw_data := acc.raw_data ++ [(nameKor, detail)] }
    else acc
  if detail = "" ∨ detail = "자료없음" ∨ detail = "해당없음" then acc
  else if strContains nameKor "외관" || strContains nameKor "성상" then
    { acc with appearance := pyTake 50 detail }
  else if strContains nameKor "냄새" then
    { acc with odor := pyTake 50 detail }
  else if strContains nameKor "pH" || strContains nameKor.toLower "ph" then
    { acc with pH := pyTake 30 detail }
  else if strContains nameKor "녹는점" || strContains nameKor "융점" then
    { acc with meltingPoint := pyTake 30 detail }
  else if strContains nameKor "끓는점" || strContains nameKor "비점" then
    { acc with boilingPoint := pyTake 30 detail }
  else if strContains nameKor "인화점" then
    { acc with flashPoint := pyTake 30 detail }
  else if strContains nameKor "증발" then
    { acc with evaporationRate := pyTake 30 detail }
  else if strContains nameKor "인화성" then
    { acc with flammability := pyTake 50 detail }
  else if strContains nameKor "폭발" then
    { acc with explosiveLimits := pyTake 50 detail }
  else if strContains nameKor "증기압" then
    { acc with vaporPressure := pyTake 30 detail }
  else if strContains nameKor "증기밀도" then
    { acc with vaporDensity := pyTake 30 detail }
  else if strContains nameKor "비중" || strContains nameKor "밀도" then
    { acc with specificGravity := pyTake 30 detail }
  else if strContains nameKor "용해" then
    { acc with solubility := pyTake 50 detail }
  else if strContains nameKor "옥탄올" || strContains nameKor.toLower "log" then
    { acc with octanolWater := pyTake 30 detail }
  else if strContains nameKor "자연발화" then
    { acc with autoignition := pyTake 30 detail }
  else if strContains nameKor "분해" then
    { acc with decompositionTemp := pyTake 30 detail }
  else if strContains nameKor "점도" then
    { acc with viscosity := pyTake 30 detail }
  else if strContains nameKor "분자량" then
    { acc with molecularWeight := pyTake 30 detail }
  else acc

/-- Function `get_physical_properties` (lines 313–383). -/
def get_physical_properties (resp : DetailResp) : PhysicalProperties :=
  match resp with
  | .netError _ => physicalDefaults
  | .badXml _ => physicalDefaults
  | .ok items => items.foldl physicalStep physicalDefaults

/-- Result dictionary of `get_ecological_info` (section 12). -/
structure EcologicalInfo where
  aquaticTox : String     -- '수생독성'
  fishTox : String        -- '어류독성'
  daphniaTox : String     -- '물벼룩독성'
  algaeTox : String       -- '조류독성'
  persistence : String    -- '잔류성'
  degradability : String  -- '분해성'
  bioaccumulation : String -- '생물농축성'
  soilMobility : String   -- '토양이동성'
  raw_data : List (String × String)
deriving DecidableEq

/-- Defaults of `get_ecological_info`. -/
def ecologicalDefaults : EcologicalInfo := ⟨"-", "-", "-", "-", "-", "-", "-", "-", []⟩

/-- One iteration of the item loop of `get_ecological_info`
(lines 401–426). -/
def ecologicalStep (acc : EcologicalInfo) (it : MsdsItem) : EcologicalInfo :=
  let nameKor := it.msdsItemNameKor.getD ""
  let detail := it.itemDetail.getD ""
  let acc := if detail ≠ "" ∧ detail ≠ "자료없음" ∧ detail ≠ "해당없음" ∧ detail ≠ "-" then
      { acc with raw_data := acc.raw_data ++ [(nameKor, detail)] }
    else acc
  if detail = "" ∨ detail = "자료없음" ∨ detail = "해당없음" then acc
  else if strContains nameKor "수생" then
    { acc with aquaticTox := pyTake 100 detail }
  else if strContains nameKor "어류" then
    { acc with fishTox := pyTake 100 detail }
  else if strContains nameKor "물벼룩" then
    { acc with daphniaTox := pyTake 100 detail }
  else if strContains nameKor "조류" then
    { acc with algaeTox := pyTake 100 detail }
  else if strContains nameKor "잔류" then
    { acc with persistence := pyTake 100 detail }
  else if strContains nameKor "분해" then
    { acc with degradability := pyTake 100 detail }
  else if strContains nameKor "생물농축" then
    { acc with bioaccumulation := pyTake 100 detail }
  else if strContains nameKor "토양이동" then
    { acc with soilMobility := pyTake 100 detail }
  else acc

/-- Function `get_ecological_info` (lines 386–431). -/
def get_ecological_info (resp : DetailResp) : EcologicalInfo :=
  match resp with
  | .netError _ => ecologicalDefaults
  | .badXml _ => ecologicalDefaults
  | .ok items => items.foldl ecologicalStep ecologicalDefaults

/-- One `item` of the chemlist search response (the five `findtext`
fields `search_by_cas` copies into its result dictionary). -/
structure ChemListItem where
  chemId : Option String
  chemNameKor : Option String
  casNo : Option String
  keNo : Option String
  unNo : Option String
deriving DecidableEq

/-- Outcome of the chemlist HTTP call. -/
inductive ChemListResp
  | netError (msg : String)
  | httpError (msg : String)
  | badXml (msg : String)
  | ok (items : List ChemListItem)
deriving DecidableEq

/-- The `try`-block body of `search_by_cas` (lines 32–47), with each
raising step surfaced as `Except.error`: `requests.get` and
`raise_for_status` raise on network/HTTP failure, `ET.fromstring` on a
malformed body; a parsed response yields `items[0]` when the item list
is non-empty and `None` otherwise. -/
def search_by_cas_body : ChemListResp → Except String (Option ChemListItem)
  | .netError e => .error e
  | .httpError e => .error e
  | .badXml e => .error e
  | .ok items => .ok items.head?

/-- Function `search_by_cas` (lines 21–50): the `try` body with
`except Exception` mapping every raised error to the `None` result. -/
def search_by_cas (resp : ChemListResp) : Option ChemListItem :=
  match search_by_cas_body resp with
  | .error _ => none
  | .ok v => v

/-- The six chemdetail responses consumed by `get_full_msds_data`. -/
structure MsdsDetailBundle where
  hazard : DetailResp
  exposure : DetailResp
  physical : DetailResp
  toxicity : DetailResp
  ecological : DetailResp
  legal : DetailResp
deriving DecidableEq

/-- The success payload of `get_full_msds_data`. -/
structure FullMsdsPayload where
  cas_no : String
  chem_id : Option String
  name_kor : Option String
  un_no : Option String
  ke_no : Option String
  hazard : HazardClassification
  exposure : ExposureLimits
  physical : PhysicalProperties
  toxicity : ToxicityInfo
  ecological : EcologicalInfo
  legal : LegalRegulations
deriving DecidableEq

/-- Result of `get_full_msds_data`: the `success: False` error
dictionary or the assembled `success: True` payload. -/
inductive FullMsdsResult
  | failure (error : String) (cas_no : String)
  | okRecord (payload : FullMsdsPayload)
deriving DecidableEq

/-- Function `get_full_msds_data` (lines 434–480): strip the CAS number, search;
a falsy search result returns `{'success': False, 'error': '미등록 물질',
'cas_no': cas_no}`; otherwise the six section extractors run and the
full record is assembled. -/
def get_full_msds_data (casNo : String) (searchResp : ChemListResp)
    (details : MsdsDetailBundle) : FullMsdsResult :=
  let cas := pyStrip casNo
  match search_by_cas searchResp with
  | none => .failure "미등록 물질" cas
  | some hit => .okRecord {
      cas_no := cas
      chem_id := hit.chemId
      name_kor := hit.chemNameKor
      un_no := hit.unNo
      ke_no := hit.keNo
      hazard := get_hazard_classification details.hazard
      exposure := get_exposure_limits details.exposure
      physical := get_physical_properties details.physical
      toxicity := get_toxicity_info details.toxicity
      ecological := get_ecological_info details.ecological
      legal := get_legal_regulations details.legal }

/-- Function `batch_query` (lines 483–498): one `get_full_msds_data` result per
requested CAS number, collected in order (the progress callback and the
inter-call delay do not affect the results). -/
def batch_query (inputs : List (String × ChemListResp × MsdsDetailBundle)) :
    List FullMsdsResult :=
  inputs.map (fun q => get_full_msds_data q.1 q.2.1 q.2.2)

/-! ## KECO registry client (core/keco_api.py)

The JSON reply is modelled by the generic shape `parse_response` walks:
an optional `header` (with optional `resultCode`/`resultMsg`), an
optional item list (absent `body`/`items` collapse to `none`), and per
item the fields the parser copies plus its `typeList`. -/

/-- One entry of an item's `typeList`. -/
structure KecoTypeItem where
  sbstnClsfTypeNm : Option PyStr
  unqNo : Option PyStr
  contInfo : Option PyStr
  excpInfo : Option PyStr
deriving DecidableEq

/-- Function `extract_percent_from_text` (lines 109–138): empty/`None` text yields
`''`; otherwise the qualified percent pattern is tried first, then the
bare percent pattern. -/
def extract_percent_from_text (text : PyStr) : String :=
  if pyTruthy text = false then ""
  else
    match searchPercent1 (pyFmt text) with
    | some (num, qual) => num ++ "%" ++ qual
    | none =>
      match searchPercent2 (pyFmt text) with
      | some num => num ++ "%"
      | none => ""

/-- The `classification_map` dictionary of `extract_classifications`. -/
structure ClassificationMap where
  toxicSubstance : String     -- '유독물질'
  restricted : String         -- '제한물질'
  prohibited : String         -- '금지물질'
  permitted : String          -- '허가물질'
  accidentSubstance : String  -- '사고대비물질'
  existingChem : String       -- '기존화학물질'
  regTargetExisting : String  -- '등록대상기존화학물질'
  massProduced : String       -- '대량생산화학물질'
  prioritySubstance : String  -- '중점관리물질'
  details : List (String × String)
deriving DecidableEq

/-- Initial `classification_map` (every class key `'-'`). -/
def classDefaults : ClassificationMap := ⟨"-", "-", "-", "-", "-", "-", "-", "-", "-", []⟩

/-- The nine keys of `classification_map`. -/
def kecoClassKeys : List String :=
  ["유독물질", "제한물질", "금지물질", "허가물질", "사고대비물질",
   "기존화학물질", "등록대상기존화학물질", "대량생산화학물질", "중점관리물질"]

/-- Assignment `classification_map[type_name] = v` by key. -/
def setClassField (m : ClassificationMap) (key v : String) : ClassificationMap :=
  if key = "유독물질" then { m with toxicSubstance := v }
  else if key = "제한물질" then { m with restricted := v }
  else if key = "금지물질" then { m with prohibited := v }
  else if key = "허가물질" then { m with permitted := v }
  else if key = "사고대비물질" then { m with accidentSubstance := v }
  else if key = "기존화학물질" then { m with existingChem := v }
  else if key = "등록대상기존화학물질" then { m with regTargetExisting := v }
  else if key = "대량생산화학물질" then { m with massProduced := v }
  else if key = "중점관리물질" then { m with prioritySubstance := v }
  else m

/-- Python dictionary assignment `d[k] = v` on an insertion-ordered
mapping: overwrite in place when the key exists, append otherwise. -/
def dictSet (l : List (String × String)) (k v : String) : List (String × String) :=
  if (l.map (fun kv => kv.1)).contains k then
    l.map (fun kv => if kv.1 = k then (k, v) else kv)
  else l ++ [(k, v)]

/-- One iteration of the `for item in type_list` loop of
`extract_classifications` (lines 174–195). -/
def classStep (acc : ClassificationMap) (it : KecoTypeItem) : ClassificationMap :=
  let typeName := dget it.sbstnClsfTypeNm ""
  let unqNo := dget it.unqNo ""
  let contInfo := dget it.contInfo ""
  let excpInfo := dget it.excpInfo ""
  match typeName with
  | none => acc
  | some tn =>
    if kecoClassKeys.contains tn then
      let percent := extract_percent_from_text contInfo
      let v := if percent ≠ "" then "O(" ++ percent ++ ")" else "O"
      let acc := setClassField acc tn v
      let acc := if pyTruthy contInfo then
          { acc with details := dictSet acc.details (tn ++ "_함량정보") (pyFmt contInfo) }
        else acc
      let acc := if pyTruthy excpInfo then
          { acc with details := dictSet acc.details (tn ++ "_예외정보") (pyFmt excpInfo) }
        else acc
      if pyTruthy unqNo ∧ unqNo ≠ some "V" then
        { acc with details := dictSet acc.details (tn ++ "_번호") (pyFmt unqNo) }
      else acc
    else acc

/-- Function `extract_classifications` (lines 141–200). -/
def extract_classifications (typeList : List KecoTypeItem) : ClassificationMap :=
  typeList.foldl classStep classDefaults

/-- The `header` object of a KECO JSON reply. -/
structure KecoHeader where
  resultCode : Option PyStr
  resultMsg : Option PyStr
deriving DecidableEq

/-- One item of a KECO JSON reply (the fields `parse_response` copies). -/
structure KecoItem where
  casNo : Option PyStr
  korexst : Option PyStr
  sbstnNmKor : Option PyStr
  sbstnNmEng : Option PyStr
  sbstnNm2Kor : Option PyStr
  mlcfrm : Option PyStr
  mlcwgt : Option PyStr
  typeList : List KecoTypeItem
deriving DecidableEq

/-- A parsed KECO JSON document: `header` may be absent; `items`
collapses the `body`/`items` chain (`none` = `body` or `items` absent;
an absent list and an empty list are equally falsy to the parser). -/
structure KecoJson where
  header : Option KecoHeader
  items : Option (List KecoItem)
deriving DecidableEq

/-- Result of `parse_response` and of the search wrappers: the
`success: False` dictionary (its echo key is `query` in
`parse_response` and `cas_no` in `search_chemical_by_cas` — same
content) or the assembled `success: True` record. -/
inductive KecoResult
  | failure (query : String) (error : PyStr)
  | okRecord (query : String) (casNo keNo nameKor nameEng name2Kor mlcfrm mlcwgt : PyStr)
      (classifications : ClassificationMap) (typeList : List KecoTypeItem)
deriving DecidableEq

/-- Function `parse_response` (lines 70–106): reject a `resultCode` other than
`"200"` (echoing `resultMsg`), reject an empty item list with
`'조회 결과 없음'`, and otherwise build the record from the *first* item
(`item = items[0]`). -/
def parse_response (data : KecoJson) (query : String) : KecoResult :=
  let resultCode := match data.header with
    | none => some ""
    | some h => dget h.resultCode ""
  if resultCode ≠ some "200" then
    .failure query (match data.header with
      | none => some ""
      | some h => dget h.resultMsg "")
  else
    match data.items with
    | none => .failure query (some "조회 결과 없음")
    | some [] => .failure query (some "조회 결과 없음")
    | some (item :: _) =>
      .okRecord query (dget item.casNo "") (dget item.korexst "") (dget item.sbstnNmKor "")
        (dget item.sbstnNmEng "") (dget item.sbstnNm2Kor "") (dget item.mlcfrm "")
        (dget item.mlcwgt "") (extract_classifications item.typeList) item.typeList

/-- Outcome of the KECO HTTP call in `search_chemical_by_cas`. -/
inductive KecoResp
  | reqError (msg : String)   -- requests.RequestException (network / raise_for_status)
  | jsonError (msg : String)  -- response.json() raised; caught by the generic handler
  | ok (data : KecoJson)
deriving DecidableEq

/-- Function `search_chemical_by_cas` (lines 17–45): a `RequestException` yields
`{'success': False, 'cas_no': ..., 'error': str(e)}`, any other raised
error yields the `'파싱 오류: ...'` dictionary, and a parsed body is
handed to `parse_response`. -/
def search_chemical_by_cas (casNo : String) (resp : KecoResp) : KecoResult :=
  match resp with
  | .reqError e => .failure casNo (some e)
  | .jsonError e => .failure casNo (some ("파싱 오류: " ++ e))
  | .ok data => parse_response data casNo

/-- Is a `KecoResult` the `success: False` dictionary? -/
def KecoResult.isFailure : KecoResult → Bool
  | .failure _ _ => true
  | .okRecord _ _ _ _ _ _ _ _ _ _ => false

/-! ## PRTR lookup -/

/-- One row of the static PRTR substance table. -/
structure PrtrEntry where
  cas : String
  group : String
  threshold : String
  name : String
deriving DecidableEq

/-- Result dictionary of the PRTR classifier
(`대상여부`/`그룹`/`기준취급량`/`물질명`). -/
structure PrtrLookupResult where
  target : String
  group : String
  threshold : String
  name : String
deriving DecidableEq

/-- Modelled from the spec: the static-table PRTR classifier
`check_prtr_status` of the `prtr_substances`/`core.prtr_db` module is
not part of the repository snapshot (only its callers and the
import-fallback stubs are under src).  Per spec §4.4, it looks the CAS
number up in a bundled static table (no live API): a hit yields the
registered group and threshold quantity with applicability `'O'`; a
substance absent from the table yields the canonical `'-'` unknown
marker for every field; the lookup is a pure table access and never
raises. -/
def check_prtr_status (table : List PrtrEntry) (casNo : String) : PrtrLookupResult :=
  match table.find? (fun e => e.cas = casNo) with
  | some e => ⟨"O", e.group, e.threshold, e.name⟩
  | none => ⟨"-", "-", "-", "-"⟩

/-- Function `check_prtr` (src/kosha_api.py lines 39–51): delegate to
`check_prtr_status` when the PRTR module imported (`table = some _`),
otherwise return the all-`'-'` default dictionary; the wrapper only
renames the keys (`대상`/`그룹`/`기준량`/`물질명`). -/
def check_prtr (table : Option (List PrtrEntry)) (casNo : String) : PrtrLookupResult :=
  match table with
  | some t => check_prtr_status t casNo
  | none => ⟨"-", "-", "-", "-"⟩

/-- The import-fallback stub `check_prtr_status` of the inventory page
(pages/2_📦_인벤토리_관리.py lines 32–36): when `core.prtr_db` cannot be
imported, every CAS number maps to
`{"대상여부": "-", "그룹": "-", "기준취급량": "-"}`. -/
def fallback_check_prtr_status (_casNo : String) : PrtrStatus :=
  ⟨some (some "-"), some (some "-"), some (some "-")⟩

/-- Well-formedness of one dictionary entry: when the key is present,
its value is an actual string (not Python `None`). -/
def entryWF (e : Option PyStr) : Prop := ∀ v, e = some v → v.isSome = true

/-! ## Helper lemmas -/

/-- A truthy Python string value is non-`None`. -/
theorem pyTruthy_isSome {a : PyStr} (h : pyTruthy a = true) : a.isSome = true := by
  cases a with
  | none => simp [pyTruthy] at h
  | some s => rfl

/-- Python `x or d` never yields `None`. -/
theorem pyOrS_isSome (a : PyStr) (d : String) : (pyOrS a d).isSome = true := by
  unfold pyOrS pyOr
  split
  · exact pyTruthy_isSome (by assumption)
  · rfl

/-- Python `dict.get(k, d) or d` never yields `None`. -/
theorem getOr_isSome (e : Option PyStr) (d : String) : (getOr e d).isSome = true := by
  unfold getOr pyOr
  split
  · exact pyTruthy_isSome (by assumption)
  · rfl

/-- The fault-aware oxygen correction never faults: the division only
happens under `actual O2 < 21`, where the divisor `21 - actual O2` is
strictly positive. -/
theorem tmsCorrectedConc?_eq (stdO2 : Option ℚ) (r : TmsRow) :
    tmsCorrectedConc? stdO2 r = some (tmsCorrectedConc stdO2 r) := by
  unfold tmsCorrectedConc? tmsCorrectedConc
  cases stdO2 with
  | none => rfl
  | some s =>
    by_cases h : r.actualO2 < 21
    · have hpos : (0 : ℚ) < 21 - r.actualO2 := by linarith
      simp [h, qdiv?, ne_of_gt hpos]
    · simp [h]

/-- A row-wise evaluation whose per-row function never faults never
faults as a whole. -/
theorem rowsEval?_total (f : TmsRow → Option ℚ) (g : TmsRow → ℚ)
    (h : ∀ r, f r = some (g r)) (l : List TmsRow) :
    rowsEval? f l = some (l.map g) := by
  induction l with
  | nil => rfl
  | cons a t ih => simp [rowsEval?, h, ih]

/-- The row-wise traversal of `calculate_tms?` never faults. -/
theorem tms_rowsEval_eq (stdO2 : Option ℚ) (l : List TmsRow) :
    rowsEval? (fun r => (tmsCorrectedConc? stdO2 r).map
        (fun c => c * r.flowRate * (1 / 1000000) * (1 / 2))) l =
      some (l.map (fun r => tmsCorrectedConc stdO2 r * r.flowRate * (1 / 1000000) * (1 / 2))) :=
  rowsEval?_total _ _ (fun r => by rw [tmsCorrectedConc?_eq]; rfl) l

/-- Row removal under the mass-balance floor: a row whose floored
emission is zero contributes nothing to the sum. -/
theorem mass_balance_sum (rows : List MassRow) :
    calculate_mass_balance rows =
      (rows.map (fun r => max (r.inputAmount - r.recoveryAmount - r.destructionAmount) 0)).sum := by
  unfold calculate_mass_balance
  split
  · simp_all
  · rfl

/-! ## Claim theorems -/

/-- C3: For each of the four batch emission tiers (continuous
monitoring, periodic self-measurement, mass balance, emission factor),
applying the tier to an empty batch returns exactly 0.0. -/
theorem C3_empty_batch_is_zero :
    (∀ stdO2, calculate_tms [] stdO2 = 0) ∧
    calculate_self_measurement [] = 0 ∧
    calculate_mass_balance [] = 0 ∧
    calculate_emission_factor [] = 0 :=
  ⟨fun _ => rfl, rfl, rfl, rfl⟩

/-- C2: The mass-balance tier computes per row
`input - recovered - destroyed`, floors each row at 0 *before*
summation, and returns the sum; a row with
`destroyed + recovered > input` contributes exactly 0 to the total —
removing it does not change the result, so it never offsets a positive
row. -/
theorem C2_mass_balance_floor_before_sum :
    (∀ rows, calculate_mass_balance rows =
      (rows.map (fun r => max (r.inputAmount - r.recoveryAmount - r.destructionAmount) 0)).sum) ∧
    (∀ pre (r : MassRow) post,
      r.destructionAmount + r.recoveryAmount > r.inputAmount →
      calculate_mass_balance (pre ++ r :: post) = calculate_mass_balance (pre ++ post)) := by
  refine ⟨mass_balance_sum, fun pre r post h => ?_⟩
  have hzero : max (r.inputAmount - r.recoveryAmount - r.destructionAmount) 0 = 0 :=
    max_eq_right (by linarith)
  rw [mass_balance_sum, mass_balance_sum]
  simp [hzero]

/-- Witness for C2 at the spec's example row (`input=100`,
`recovery=150`, `destruction=0`): the offending row contributes 0 and
does not offset the positive row before it. -/
theorem C2_mass_balance_floor_before_sum_witness :
    ((⟨100, 150, 0⟩ : MassRow).destructionAmount + (⟨100, 150, 0⟩ : MassRow).recoveryAmount
        > (⟨100, 150, 0⟩ : MassRow).inputAmount) ∧
    calculate_mass_balance [⟨50, 0, 0⟩, ⟨100, 150, 0⟩] = calculate_mass_balance [⟨50, 0, 0⟩] ∧
    calculate_mass_balance [⟨50, 0, 0⟩, ⟨100, 150, 0⟩] = 50 :=
  ⟨by norm_num,
   C2_mass_balance_floor_before_sum.2 [⟨50, 0, 0⟩] ⟨100, 150, 0⟩ [] (by norm_num),
   by decide⟩

/-- C7 counterexample: the emission-factor example row
(`activity=15000`, `factor=0.002`, `efficiency=90`) does *not* evaluate
to exactly 3.0 in double-precision floating point.  The three inputs are
binary64 values (`15000` and `90` exactly, `0.002` as the nearest
double), and the claimed formula evaluated with binary64 rounding after
every operation yields `3 - 2⁻⁵⁰` (printed `2.999999999999999`), one ulp
below 3.0 — because `fl(1 - fl(90/100)) = 0.09999999999999998 < 1/10`. -/
theorem C7_counterexample :
    round64 15000 = 15000 ∧ round64 90 = 90 ∧
    flEmissionFactorRow 15000 (round64 (1/500)) 90 = 3 - (1/2) ^ 50 ∧
    flEmissionFactorRow 15000 (round64 (1/500)) 90 ≠ 3 := by
  refine ⟨by decide, by decide, by decide, by decide⟩

/-- C7 amended: in exact arithmetic the row contributes exactly 3
(both in the batch tier and the simplified scalar variant, whose
`max(·, 0)` floor is inactive here); in double-precision floating point
the computed contribution is `3 - 2⁻⁵⁰`, the largest double below 3.0. -/
theorem C7_emission_factor_example :
    calculate_emission_factor [⟨15000, 1/500, 90⟩] = 3 ∧
    calculate_simple_emission_factor 15000 (1/500) 90 = 3 ∧
    flEmissionFactorRow 15000 (round64 (1/500)) 90 = 3 - (1/2) ^ 50 := by
  refine ⟨by decide, by decide, by decide⟩

/-- C9: In the continuous-monitoring (TMS) tier the oxygen-concentration
correction divides by `21 - actual O2` only on rows with
`actual O2 < 21`, so the divisor is strictly positive and the
calculation never divides by zero: the fault-aware evaluation
`calculate_tms?`, in which a zero divisor would surface as `none`,
returns `some` of the plain result for every input batch and every
standard-O2 setting. -/
theorem C9_tms_never_divides_by_zero (rows : List TmsRow) (stdO2 : Option ℚ) :
    calculate_tms? rows stdO2 = some (calculate_tms rows stdO2) := by
  unfold calculate_tms? calculate_tms
  split
  · rfl
  · rw [tms_rowsEval_eq]

/-- C8: For every CAS number absent from the static PRTR lookup table,
the PRTR classifier returns the unknown marker `'-'` for all fields
(applicability, group, threshold quantity — and the substance name) and
never raises: the lookup is a total table access, the `check_prtr`
wrapper returns the same all-`'-'` default when the PRTR module is
missing, and the inventory page's import-fallback stub returns the
`'-'` marker for the three fields for every CAS number. -/
theorem C8_prtr_absent_is_unknown (table : List PrtrEntry) (cas : String)
    (h : ∀ e ∈ table, e.cas ≠ cas) :
    check_prtr_status table cas = ⟨"-", "-", "-", "-"⟩ ∧
    check_prtr (some table) cas = ⟨"-", "-", "-", "-"⟩ ∧
    check_prtr none cas = ⟨"-", "-", "-", "-"⟩ ∧
    fallback_check_prtr_status cas = ⟨some (some "-"), some (some "-"), some (some "-")⟩ := by
  have hfind : table.find? (fun e => e.cas = cas) = none := by
    rw [List.find?_eq_none]
    intro e he
    simp [h e he]
  exact ⟨by simp [check_prtr_status, hfind], by simp [check_prtr, check_prtr_status, hfind],
    rfl, rfl⟩

/-- Witness for C8: a one-row table without the queried CAS number. -/
theorem C8_prtr_absent_is_unknown_witness :
    (∀ e ∈ [(⟨"108-88-3", "I", "1,000", "톨루엔"⟩ : PrtrEntry)], e.cas ≠ "67-64-1") ∧
    check_prtr_status [(⟨"108-88-3", "I", "1,000", "톨루엔"⟩ : PrtrEntry)] "67-64-1" =
      ⟨"-", "-", "-", "-"⟩ :=
  ⟨by decide,
   (C8_prtr_absent_is_unknown [⟨"108-88-3", "I", "1,000", "톨루엔"⟩] "67-64-1" (by decide)).1⟩

/-- C5: A registry lookup never raises to its caller.  Every raising
step sits inside the functions' `try` blocks, and each of the three
failure modes — network/HTTP error, malformed response body, zero
results — is returned as a "not found"/error *value*: `search_by_cas`
returns `None`, `search_chemical_by_cas` returns a `success: False`
dictionary (for any header on an empty item list), `get_full_msds_data`
returns the `'미등록 물질'` error record; and `batch_query` maps every
input to its own result, so one CAS number's failure leaves the rest of
the batch untouched. -/
theorem C5_lookup_failures_are_values :
    (∀ e, search_by_cas (.netError e) = none ∧ search_by_cas (.httpError e) = none ∧
      search_by_cas (.badXml e) = none ∧ search_by_cas (.ok []) = none) ∧
    (∀ cas e hdr, (search_chemical_by_cas cas (.reqError e)).isFailure = true ∧
      (search_chemical_by_cas cas (.jsonError e)).isFailure = true ∧
      (search_chemical_by_cas cas (.ok ⟨hdr, none⟩)).isFailure = true ∧
      (search_chemical_by_cas cas (.ok ⟨hdr, some []⟩)).isFailure = true) ∧
    (∀ cas dets e, get_full_msds_data cas (.netError e) dets = .failure "미등록 물질" (pyStrip cas) ∧
      get_full_msds_data cas (.httpError e) dets = .failure "미등록 물질" (pyStrip cas) ∧
      get_full_msds_data cas (.badXml e) dets = .failure "미등록 물질" (pyStrip cas) ∧
      get_full_msds_data cas (.ok []) dets = .failure "미등록 물질" (pyStrip cas)) ∧
    (∀ pre q post, batch_query (pre ++ q :: post) =
      batch_query pre ++ get_full_msds_data q.1 q.2.1 q.2.2 :: batch_query post) := by
  refine ⟨fun e => ⟨rfl, rfl, rfl, rfl⟩, fun cas e hdr => ⟨rfl, rfl, ?_, ?_⟩,
    fun cas dets e => ⟨rfl, rfl, rfl, rfl⟩, fun pre q post => by simp [batch_query]⟩
  · show (parse_response ⟨hdr, none⟩ cas).isFailure = true
    unfold parse_response
    dsimp only
    repeat' split
    all_goals rfl
  · show (parse_response ⟨hdr, some []⟩ cas).isFailure = true
    unfold parse_response
    dsimp only
    repeat' split
    all_goals rfl

/-- C6 counterexample: in `get_exposure_limits`, when one raw record
carries two entries matching the same label-pattern, the extracted TWA
comes from the *last* matching entry, not the first: with a first item
`TWA: 50 ppm` and a second item `TWA: 100 ppm` under the same
`노출기준` label, the result is `100 ppm`, while the record truncated to
its first item yields `50 ppm`. -/
theorem C6_counterexample :
    get_exposure_limits (.ok [⟨some "노출기준", some "TWA: 50 ppm"⟩,
        ⟨some "노출기준", some "TWA: 100 ppm"⟩]) =
      ⟨"100 ppm", "-", "-", [("노출기준", "TWA: 50 ppm"), ("노출기준", "TWA: 100 ppm")]⟩ ∧
    get_exposure_limits (.ok [⟨some "노출기준", some "TWA: 50 ppm"⟩]) =
      ⟨"50 ppm", "-", "-", [("노출기준", "TWA: 50 ppm")]⟩ ∧
    ("100 ppm" : String) ≠ "50 ppm" :=
  ⟨by decide, by decide, by decide⟩

/-- C6 amended: first match wins in search-result *selection* — both
`search_by_cas` and `parse_response` use `items[0]` and ignore all later
items — but in the per-field extraction loop of `get_exposure_limits`
each later matching entry overwrites the regex-extracted fields, so the
*last* matching entry wins (the bare-ppm fallback alone fires only while
TWA is still unset). -/
theorem C6_first_item_selection_last_match_extraction :
    (∀ (i : ChemListItem) rest, search_by_cas (.ok (i :: rest)) = some i) ∧
    (∀ q hdr (item : KecoItem) rest, parse_response ⟨hdr, some (item :: rest)⟩ q =
      parse_response ⟨hdr, some [item]⟩ q) ∧
    (∀ pre nameKor detail g,
      exposureLabelHit nameKor = true →
      detail ≠ "" → detail ≠ "자료없음" → detail ≠ "해당없음" →
      searchKeyVal "TWA" detail = some g →
      pyTake 50 (pyStrip g) ≠ "-" →
      (get_exposure_limits (.ok (pre ++ [⟨some nameKor, some detail⟩]))).TWA =
        pyTake 50 (pyStrip g)) := by
  refine ⟨fun i rest => rfl, fun q hdr item rest => ?_, ?_⟩
  · cases hdr with
    | none => rfl
    | some h =>
      unfold parse_response
      dsimp only
  · intro pre nameKor detail g hlabel h1 h2 h3 hsearch hdash
    show (List.foldl exposureStep ⟨"-", "-", "-", []⟩
      (pre ++ [⟨some nameKor, some detail⟩])).TWA = pyTake 50 (pyStrip g)
    rw [List.foldl_append]
    unfold exposureStep
    cases hS : searchKeyVal "STEL" detail <;> cases hC : searchKeyVal "ceiling" detail <;>
      simp [hlabel, h1, h2, h3, hsearch, hS, hC, hdash]

/-- Witness for the C6 amended theorem: the last matching entry's TWA
of a two-item record is the extracted one. -/
theorem C6_first_item_selection_last_match_extraction_witness :
    exposureLabelHit "노출기준" = true ∧
    searchKeyVal "TWA" "TWA: 10 ppm" = some "10 ppm" ∧
    (get_exposure_limits (.ok [⟨some "국내 기준", some "TWA: 1 ppm"⟩,
        ⟨some "노출기준", some "TWA: 10 ppm"⟩])).TWA = pyTake 50 (pyStrip "10 ppm") :=
  ⟨by decide, by decide,
   C6_first_item_selection_last_match_extraction.2.2 [⟨some "국내 기준", some "TWA: 1 ppm"⟩]
     "노출기준" "TWA: 10 ppm" "10 ppm" (by decide) (by decide) (by decide) (by decide)
     (by decide) (by decide)⟩

/-- Python `dict.get(k, d)` of a well-formed entry is never `None`. -/
theorem dget_isSome_of_WF {e : Option PyStr} (h : entryWF e) (d : String) :
    (dget e d).isSome = true := by
  cases e with
  | none => rfl
  | some v => exact h v rfl

/-- Python `a or b` is non-`None` whenever `b` is. -/
theorem pyOr_isSome {a b : PyStr} (hb : b.isSome = true) : (pyOr a b).isSome = true := by
  unfold pyOr
  split
  · exact pyTruthy_isSome (by assumption)
  · exact hb

/-- A conditional write is non-`None` when both alternatives are. -/
theorem ite_isSome (c : Prop) [Decidable c] {a b : PyStr}
    (ha : a.isSome = true) (hb : b.isSome = true) : (if c then a else b).isSome = true := by
  split
  · exact ha
  · exact hb

/-- A truthiness-guarded write is non-`None` when the fallback is: the
guard guarantees the written value itself is a string. -/
theorem ite_guard_isSome (q : Prop) {v b : PyStr} [Decidable ((pyTruthy v = true) ∧ q)]
    (hb : b.isSome = true) : (if (pyTruthy v = true) ∧ q then v else b).isSome = true := by
  split
  · next h => exact pyTruthy_isSome h.1
  · exact hb

/-- Every field of the initial item dictionary is non-`None`. -/
theorem initInventoryItem_isSome (pn uw prn cn an casV ct : PyStr) (f : ItemField) :
    ((initInventoryItem pn uw prn cn an casV ct).get f).isSome = true := by
  cases f <;> first | exact pyOrS_isSome _ _ | rfl

/-- The KOSHA block preserves non-`None`-ness of every field, provided
the two chemical-name entries are well-formed (they are the only KOSHA
reads without an `or`-default). -/
theorem koshaApply_isSome (cn : PyStr) (k : KoshaData) (x : InventoryItem)
    (hen : entryWF k.chemNmEn)
    (hx : ∀ f, (x.get f).isSome = true) (f : ItemField) :
    ((koshaApply cn k x).get f).isSome = true := by
  cases f <;>
    first
      | exact getOr_isSome _ _
      | exact hx ItemField.processName
      | exact hx ItemField.unitWorkplace
      | exact hx ItemField.productName
      | exact hx ItemField.chemicalName
      | exact hx ItemField.aliasName
      | exact hx ItemField.casNo
      | exact hx ItemField.contentPct
      | exact hx ItemField.carcinogenic
      | exact hx ItemField.mutagenic
      | exact hx ItemField.reproductiveTox
      | exact hx ItemField.twaLimit
      | exact hx ItemField.workMeasure
      | exact hx ItemField.specialHealth
      | exact hx ItemField.managedSubstance
      | exact hx ItemField.specialManaged
      | exact hx ItemField.hazmatClass
      | exact hx ItemField.hazmatQuantity
      | exact hx ItemField.hazmatGrade
      | exact hx ItemField.existingFlag
      | exact hx ItemField.acuteChronicEco
      | exact hx ItemField.accidentPrep
      | exact hx ItemField.restrictFlag
      | exact hx ItemField.priorityFlag
      | exact hx ItemField.residualFlag
      | exact hx ItemField.contentRegInfo
      | exact hx ItemField.regTargetExisting
      | exact hx ItemField.existingStatus
      | exact hx ItemField.prtrGroup
      | exact hx ItemField.prtrThreshold
      | exact ite_isSome _ (hx ItemField.chemicalName) (pyOr_isSome (dget_isSome_of_WF hen ""))
      | exact ite_isSome _ rfl (ite_isSome _ (getOr_isSome _ _) (hx ItemField.hazmatClass))

/-- The KECO block preserves non-`None`-ness of every field: each of its
writes is either a literal, a joined string, or a value guarded by
truthiness. -/
theorem kecoApply_isSome (d : KecoRegs) (x : InventoryItem)
    (hx : ∀ f, (x.get f).isSome = true) (f : ItemField) :
    ((kecoApply d x).get f).isSome = true := by
  cases f <;>
    first
      | exact hx ItemField.processName
      | exact hx ItemField.unitWorkplace
      | exact hx ItemField.productName
      | exact hx ItemField.chemicalName
      | exact hx ItemField.aliasName
      | exact hx ItemField.casNo
      | exact hx ItemField.contentPct
      | exact hx ItemField.carcinogenic
      | exact hx ItemField.mutagenic
      | exact hx ItemField.reproductiveTox
      | exact hx ItemField.twaLimit
      | exact hx ItemField.workMeasure
      | exact hx ItemField.specialHealth
      | exact hx ItemField.managedSubstance
      | exact hx ItemField.specialManaged
      | exact hx ItemField.hazmatClass
      | exact hx ItemField.hazmatQuantity
      | exact hx ItemField.hazmatGrade
      | exact hx ItemField.existingFlag
      | exact hx ItemField.acuteChronicEco
      | exact hx ItemField.accidentPrep
      | exact hx ItemField.restrictFlag
      | exact hx ItemField.priorityFlag
      | exact hx ItemField.residualFlag
      | exact hx ItemField.contentRegInfo
      | exact hx ItemField.regTargetExisting
      | exact hx ItemField.existingStatus
      | exact hx ItemField.prtrGroup
      | exact hx ItemField.prtrThreshold
      | exact ite_guard_isSome _ (hx ItemField.existingStatus)
      | exact ite_guard_isSome _ (ite_guard_isSome _ (hx ItemField.acuteChronicEco))
      | exact ite_guard_isSome _ (hx ItemField.accidentPrep)
      | exact ite_guard_isSome _ (hx ItemField.priorityFlag)
      | exact ite_guard_isSome _ (hx ItemField.regTargetExisting)
      | exact ite_isSome _ rfl (hx ItemField.existingFlag)
      | exact ite_isSome _ rfl (hx ItemField.restrictFlag)
      | exact ite_isSome _ rfl (hx ItemField.contentRegInfo)

/-- The PRTR block preserves non-`None`-ness of every field, provided
the group and threshold entries are well-formed (they are copied without
an `or`-guard). -/
theorem prtrApply_isSome (p : PrtrStatus) (x : InventoryItem)
    (hg : entryWF p.group) (ht : entryWF p.threshold)
    (hx : ∀ f, (x.get f).isSome = true) (f : ItemField) :
    ((prtrApply p x).get f).isSome = true := by
  cases f <;>
    first
      | exact hx ItemField.processName
      | exact hx ItemField.unitWorkplace
      | exact hx ItemField.productName
      | exact hx ItemField.chemicalName
      | exact hx ItemField.aliasName
      | exact hx ItemField.casNo
      | exact hx ItemField.contentPct
      | exact hx ItemField.carcinogenic
      | exact hx ItemField.mutagenic
      | exact hx ItemField.reproductiveTox
      | exact hx ItemField.twaLimit
      | exact hx ItemField.workMeasure
      | exact hx ItemField.specialHealth
      | exact hx ItemField.managedSubstance
      | exact hx ItemField.specialManaged
      | exact hx ItemField.hazmatClass
      | exact hx ItemField.hazmatQuantity
      | exact hx ItemField.hazmatGrade
      | exact hx ItemField.existingFlag
      | exact hx ItemField.acuteChronicEco
      | exact hx ItemField.accidentPrep
      | exact hx ItemField.restrictFlag
      | exact hx ItemField.priorityFlag
      | exact hx ItemField.residualFlag
      | exact hx ItemField.contentRegInfo
      | exact hx ItemField.regTargetExisting
      | exact hx ItemField.existingStatus
      | exact hx ItemField.prtrGroup
      | exact hx ItemField.prtrThreshold
      | exact ite_isSome _ (dget_isSome_of_WF hg "-") (hx ItemField.prtrGroup)
      | exact ite_isSome _ (dget_isSome_of_WF ht "-") (hx ItemField.prtrThreshold)

/-- The CAS field of a created item is the `cas_no or ''` of its
argument: none of the registry blocks writes it. -/
theorem create_inventory_item_casNo (pn uw prn cn an casV ct : PyStr)
    (kd : Option KoshaData) (ked : Option KecoRegs) (pd : Option PrtrStatus) :
    (create_inventory_item pn uw prn cn an casV ct kd ked pd).casNo = pyOrS casV "" := by
  unfold create_inventory_item
  cases kd <;> cases ked <;> cases pd <;>
    first
      | rfl
      | (dsimp only; split <;> rfl)

/-- C10 counterexample: `create_inventory_item` can return a record with
a null ledger field — a PRTR status whose `'대상여부'` is `'O'` but whose
`'그룹'` key holds Python `None` is copied verbatim by
`prtr_status.get('그룹', '-')`, so the `'PRTR그룹'` field of the item is
`None`, not a `'-'`/`'X'` default. -/
theorem C10_counterexample :
    (create_inventory_item none none none none none (some "67-64-1") none none none
        (some ⟨some (some "O"), some none, some (some "1000")⟩)).get ItemField.prtrGroup = none ∧
    ¬ (∀ f, ((create_inventory_item none none none none none (some "67-64-1") none none none
        (some ⟨some (some "O"), some none, some (some "1000")⟩)).get f).isSome = true) :=
  ⟨by decide, by decide⟩

/-- C10 amended: for every combination of inputs — including all three
data arguments missing (`None`), arbitrary (even `None`) user fields,
and arbitrary KECO payloads — creating an inventory item returns a
record whose every ledger field is non-null, *provided* the four
registry entries copied without an `or`-guard (the KOSHA
`chemNmKr`/`chemNmEn` and the PRTR `'그룹'`/`'기준취급량'`) hold actual
strings when present. -/
theorem C10_all_fields_non_null (pn uw prn cn an casV ct : PyStr)
    (kd : Option KoshaData) (ked : Option KecoRegs) (pd : Option PrtrStatus)
    (hk : ∀ k, kd = some k → entryWF k.chemNmEn)
    (hp : ∀ p, pd = some p → entryWF p.group ∧ entryWF p.threshold) :
    ∀ f, ((create_inventory_item pn uw prn cn an casV ct kd ked pd).get f).isSome = true := by
  have h0 := initInventoryItem_isSome pn uw prn cn an casV ct
  unfold create_inventory_item
  cases kd with
  | none =>
    cases ked with
    | none =>
      cases pd with
      | none => exact h0
      | some p => exact prtrApply_isSome p _ (hp p rfl).1 (hp p rfl).2 h0
    | some d =>
      cases pd with
      | none =>
        intro g
        dsimp only
        split
        · exact kecoApply_isSome d _ h0 g
        · exact h0 g
      | some p =>
        intro g
        dsimp only
        split
        · exact prtrApply_isSome p _ (hp p rfl).1 (hp p rfl).2 (kecoApply_isSome d _ h0) g
        · exact prtrApply_isSome p _ (hp p rfl).1 (hp p rfl).2 h0 g
  | some k =>
    have hb := koshaApply_isSome cn k _ (hk k rfl) h0
    cases ked with
    | none =>
      cases pd with
      | none => exact hb
      | some p => exact prtrApply_isSome p _ (hp p rfl).1 (hp p rfl).2 hb
    | some d =>
      cases pd with
      | none =>
        intro g
        dsimp only
        split
        · exact kecoApply_isSome d _ hb g
        · exact hb g
      | some p =>
        intro g
        dsimp only
        split
        · exact prtrApply_isSome p _ (hp p rfl).1 (hp p rfl).2 (kecoApply_isSome d _ hb) g
        · exact prtrApply_isSome p _ (hp p rfl).1 (hp p rfl).2 hb g

/-- Witness for C10 at the all-`None` data arguments. -/
theorem C10_all_fields_non_null_witness :
    ((create_inventory_item none none none none none none none none none none).get
      ItemField.prtrGroup).isSome = true :=
  C10_all_fields_non_null none none none none none none none none none none
    (fun _ hk => nomatch hk) (fun _ hp => nomatch hp) ItemField.prtrGroup

/-- C4: When `create_inventory_item` merges the per-field outputs of the
registry sources into one compliance record, the first non-unknown value
wins: for every field, either the later sources (KECO, PRTR) leave the
field exactly as the earlier KOSHA pass left it, or the KOSHA pass had
left it at its initial `'-'`/`'X'` sentinel (so a later source only ever
replaces a sentinel, and an explicit earlier value is never overwritten
by a later source's explicit value).  On the one field fed by two
source values (`'급성·만성·생태'`, from the KECO `유독물질` and
`인체유해성물질` entries) the spec's three scenarios hold concretely:
A=`"O"`, B=unknown ⇒ `"O"`; A=unknown, B=`"O"` ⇒ `"O"`; A=`"O"`,
B=`"X"` (explicit conflict) ⇒ `"O"`. -/
theorem C4_first_non_unknown_wins :
    (∀ (pn uw prn cn an casV ct : PyStr) (kd : Option KoshaData) (ked : Option KecoRegs)
       (pd : Option PrtrStatus) (f : ItemField),
      (create_inventory_item pn uw prn cn an casV ct kd ked pd).get f =
        (create_inventory_item pn uw prn cn an casV ct kd none none).get f ∨
      (create_inventory_item pn uw prn cn an casV ct kd none none).get f =
        (initInventoryItem pn uw prn cn an casV ct).get f) ∧
    (create_inventory_item none none none none none none none none
      (some ⟨true, none, some (some "O"), none, none, none, none, none, none, none, []⟩)
      none).acuteChronicEco = some "O" ∧
    (create_inventory_item none none none none none none none none
      (some ⟨true, none, none, some (some "O"), none, none, none, none, none, none, []⟩)
      none).acuteChronicEco = some "O" ∧
    (create_inventory_item none none none none none none none none
      (some ⟨true, none, some (some "O"), some (some "X"), none, none, none, none, none, none, []⟩)
      none).acuteChronicEco = some "O" := by
  refine ⟨?_, by decide, by decide, by decide⟩
  intro pn uw prn cn an casV ct kd ked pd f
  cases kd <;> rcases ked with _ | ⟨_ | _, e1, e2, e3, e4, e5, e6, e7, e8, e9, dl⟩ <;>
    cases pd <;> cases f <;> first | exact Or.inl rfl | exact Or.inr rfl

/-- C1 counterexample: the tab-1 batch upload loop performs no duplicate
check — uploading the same CAS number twice in one batch produces two
inventory rows for that CAS number, violating "at most one row per CAS
number per inventory". -/
theorem C1_counterexample :
    casCount (batchUpload []
      [⟨some "67-64-1", none, none, none, none, none, none, none, none⟩,
       ⟨some "67-64-1", none, none, none, none, none, none, none, none⟩]) "67-64-1" = 2 ∧
    ¬ casCount (batchUpload []
      [⟨some "67-64-1", none, none, none, none, none, none, none, none⟩,
       ⟨some "67-64-1", none, none, none, none, none, none, none, none⟩]) "67-64-1" ≤ 1 :=
  ⟨by decide, by decide⟩

/-- C1 amended: only the tab-2 *manual* registration path enforces the
invariant — a CAS number (without surrounding whitespace, which the
check would not survive) already present in the inventory is rejected
with the duplicate warning before insertion and the inventory is
unchanged, and a manual registration never breaks distinctness of the
stored CAS numbers; the batch-upload path appends unconditionally (see
the counterexample). -/
theorem C1_manual_registration_deduplicates :
    (∀ inv (pn uw prn an : PyStr) cas (ct : PyStr) kd ked pd,
      pyStrip cas = cas →
      (inv.map (fun i => i.casNo)).Nodup →
      ((manualRegister inv pn uw prn an cas ct kd ked pd).inventory.map
        (fun i => i.casNo)).Nodup) ∧
    (∀ inv (pn uw prn an : PyStr) cas (ct : PyStr) kd ked pd,
      cas ≠ "" →
      (kd.isSome || (match ked with | some d => d.success | none => false)) = true →
      (inv.map (fun i => i.casNo)).contains (some (pyStrip cas)) = true →
      manualRegister inv pn uw prn an cas ct kd ked pd = ⟨inv, true⟩) := by
  constructor
  · intro inv pn uw prn an cas ct kd ked pd hstrip hnodup
    unfold manualRegister
    split
    · exact hnodup
    · dsimp only
      split
      · split
        · exact hnodup
        · next hcas _ hcontain =>
          simp only [List.map_append, List.map_cons, List.map_nil]
          rw [create_inventory_item_casNo]
          have hcaseq : pyOrS (some cas) "" = some cas := by
            unfold pyOrS pyOr pyTruthy
            simp [hcas]
          rw [hcaseq]
          rw [List.nodup_append]
          refine ⟨hnodup, List.nodup_singleton _, ?_⟩
          intro a ha
          simp only [List.mem_singleton]
          intro heq
          apply hcontain
          rw [hstrip]
          exact List.elem_eq_true_of_mem (heq ▸ ha)
      · exact hnodup
  · intro inv pn uw prn an cas ct kd ked pd hcas hquery hcontain
    unfold manualRegister
    rw [if_neg hcas]
    dsimp only
    rw [if_pos hquery]
    rw [if_pos hcontain]

/-- Witness for the C1 amended theorem: a fresh manual registration into
an empty inventory keeps CAS numbers distinct. -/
theorem C1_manual_registration_deduplicates_witness :
    pyStrip "67-64-1" = "67-64-1" ∧
    ((([] : List InventoryItem).map (fun i => i.casNo)).Nodup) ∧
    ((manualRegister [] none none none none "67-64-1" none
      (some ⟨none, none, none, none, none, none, none, none, none, none, none⟩)
      none none).inventory.map (fun i => i.casNo)).Nodup :=
  ⟨by decide, by decide,
   C1_manual_registration_deduplicates.1 [] none none none none "67-64-1" none
     (some ⟨none, none, none, none, none, none, none, none, none, none, none⟩) none none
     (by decide) (by decide)⟩
